import Mathlib

/-!
Verification development for the discourse-intelligence-engine repository.

The Python source is shallowly embedded: text is `List Char` (ASCII inputs),
Python `float` arithmetic is modelled exactly over `ℚ` (every constant in the
source is a short decimal, so the rational model matches the intended real
semantics), fallible code returns `Except`.  Regular-expression searches are
embedded per pattern: each compiled pattern of the source becomes one Lean
matcher built from position-set combinators (an NFA-style simulation over
match positions); a regex search succeeds iff the corresponding matcher's
final position set is non-empty.  Greedy/lazy distinctions are irrelevant for
the existence of a match, and they are handled explicitly in the one place a
capture group's content matters.  Python `set` iteration order is unspecified;
it is embedded as the literal declaration order of the source, and no settled
claim depends on that order.
-/

namespace DiscourseEngine

/-- Text is a list of characters (inputs to the engine are ASCII). -/
abbrev Str := List Char

/-- The apostrophe character (U+0027), built by code point. -/
def apos : Char := Char.ofNat 39

/-- Python whitespace for `str.strip` / regex `\s` (ASCII range). -/
def isWs (c : Char) : Bool :=
  c = ' ' || c = Char.ofNat 9 || c = Char.ofNat 10 || c = Char.ofNat 13 ||
  c = Char.ofNat 11 || c = Char.ofNat 12

/-- ASCII lowering, as Python `str.lower` acts on ASCII text. -/
def lowerChar (c : Char) : Char :=
  if 'A' ≤ c ∧ c ≤ 'Z' then Char.ofNat (c.toNat + 32) else c

/-- Python `str.lower` on ASCII text. -/
def lowerStr (s : Str) : Str := s.map lowerChar

/-- Regex `\w` (word character) on ASCII text: letters, digits, underscore. -/
def isWordChar (c : Char) : Bool :=
  ('a' ≤ c && c ≤ 'z') || ('A' ≤ c && c ≤ 'Z') || ('0' ≤ c && c ≤ '9') || c = '_'

/-- `pat` occurs in `s` starting at position `i`. -/
def occursAt (s pat : Str) (i : Nat) : Bool := pat.isPrefixOf (s.drop i)

/-- Python substring containment `pat in s`. -/
def containsSub (s pat : Str) : Bool :=
  match s with
  | [] => pat.isEmpty
  | _ :: t => pat.isPrefixOf s || containsSub t pat

/-- Is the character at position `i` (if any) a word character? -/
def wcAt (s : Str) (i : Nat) : Bool :=
  match s.get? i with
  | some c => isWordChar c
  | none => false

/-- Regex `\b`: position `i` (0 … length) lies on a word/non-word boundary. -/
def boundaryAt (s : Str) (i : Nat) : Bool :=
  (if i = 0 then false else wcAt s (i - 1)) != wcAt s i

/-- A whole `\b pat \b` match of `pat` at position `i`. -/
def boundedAt (s pat : Str) (i : Nat) : Bool :=
  boundaryAt s i && occursAt s pat i && boundaryAt s (i + pat.length)

/-- All candidate match positions of `s` (0 … length). -/
def allPos (s : Str) : List Nat := List.range (s.length + 1)

/-- Search for `\b pat \b` anywhere in `s`. -/
def containsBounded (s pat : Str) : Bool := (allPos s).any (boundedAt s pat)

/-- Search for `\b pat \w* \b`: a word starting with `pat` (the trailing
`\w*\b` of such patterns is always satisfiable by taking the rest of the
word run, so only the bounded start and the literal are constrained). -/
def containsWordStart (s pat : Str) : Bool :=
  (allPos s).any (fun i => boundaryAt s i && occursAt s pat i)

/-! ### Position-set combinators (NFA-style regex simulation)

A partial match is a set of positions reached so far; each regex component
maps a position set to the set of positions reachable after it.  A search
succeeds iff the final set is non-empty. -/

/-- Literal component: advance every position where `pat` occurs. -/
def litP (s pat : Str) (S : List Nat) : List Nat :=
  (S.filter (occursAt s pat)).map (· + pat.length)

/-- Alternation of already-computed branches. -/
def altP (A B : List Nat) : List Nat := A ++ B

/-- `\b` assertion: keep only boundary positions. -/
def bndP (s : Str) (S : List Nat) : List Nat := S.filter (boundaryAt s)

/-- Length of the whitespace run starting at `i`. -/
def wsRunLen (s : Str) (i : Nat) : Nat := ((s.drop i).takeWhile isWs).length

/-- Length of the word-character run starting at `i`. -/
def wordRunLen (s : Str) (i : Nat) : Nat := ((s.drop i).takeWhile isWordChar).length

/-- Positions `i+1 … i+len` (the nonempty prefixes of a run at `i`). -/
def plusTargets (i len : Nat) : List Nat := (List.range len).map (fun k => i + k + 1)

/-- Regex `\s+`. -/
def wsPlusP (s : Str) (S : List Nat) : List Nat :=
  S.flatMap (fun i => plusTargets i (wsRunLen s i))

/-- Regex `\s*`. -/
def wsStarP (s : Str) (S : List Nat) : List Nat :=
  S.flatMap (fun i => i :: plusTargets i (wsRunLen s i))

/-- Regex `\w+`. -/
def wordPlusP (s : Str) (S : List Nat) : List Nat :=
  S.flatMap (fun i => plusTargets i (wordRunLen s i))

/-- Optional component `(?: … )?`. -/
def optP (f : List Nat → List Nat) (S : List Nat) : List Nat := S ++ f S

/-- Bounded repetition `(?: … ){0,n}`. -/
def repAtMost (f : List Nat → List Nat) : Nat → List Nat → List Nat
  | 0, S => S
  | n + 1, S => S ++ repAtMost f n (f S)

/-- Regex `.*` with DOTALL: from each position, all positions up to the end. -/
def dotStarP (s : Str) (S : List Nat) : List Nat :=
  S.flatMap (fun i => (List.range (s.length + 1 - i)).map (i + ·))

/-- Single character from a class, e.g. `[,.]`. -/
def clsP (s : Str) (p : Char → Bool) (S : List Nat) : List Nat :=
  (S.filter (fun i =>
    match s.get? i with
    | some c => p c
    | none => false)).map (· + 1)

/-- A search succeeds iff some match position survived. -/
def someMatch (S : List Nat) : Bool := !S.isEmpty

/-- Python `str.strip()`. -/
def pyStrip (s : Str) : Str :=
  ((s.dropWhile isWs).reverse.dropWhile isWs).reverse

/-- Python `str.rstrip(chars)`. -/
def pyRstrip (s : Str) (chars : List Char) : Str :=
  (s.reverse.dropWhile (fun c => chars.contains c)).reverse

/-- Helper for `pySplit`: accumulate the current (reversed) field. -/
def pySplitAux : Str → Str → List Str
  | [], acc => if acc.isEmpty then [] else [acc.reverse]
  | c :: t, acc =>
    if isWs c then
      if acc.isEmpty then pySplitAux t [] else acc.reverse :: pySplitAux t []
    else pySplitAux t (c :: acc)

/-- Python `str.split()`: the maximal non-whitespace runs, no empty fields. -/
def pySplit (s : Str) : List Str := pySplitAux s []

/-- Maximal word-character runs of `s` (regex `\b\w+\b` findall). -/
def wordRunsAux : Str → Str → List Str
  | [], acc => if acc.isEmpty then [] else [acc.reverse]
  | c :: t, acc =>
    if isWordChar c then wordRunsAux t (c :: acc)
    else if acc.isEmpty then wordRunsAux t [] else acc.reverse :: wordRunsAux t []

/-- Maximal word-character runs of `s`. -/
def wordRuns (s : Str) : List Str := wordRunsAux s []

/-! ## Satire analyzer (`analyzers/satire.py`) -/

namespace Satire

/-- `ABSURD_NOUNS` of `satire.py`. -/
def ABSURD_NOUNS : List Str :=
  ["cats".data, "dogs".data, "penguins".data, "zombies".data, "aliens".data,
   "unicorns".data, "clowns".data, "potatoes".data, "bananas".data, "robots".data]

/-- `GEOPOLITICAL_TERMS` of `satire.py`. -/
def GEOPOLITICAL_TERMS : List Str :=
  ["iran".data, "russia".data, "china".data, "korea".data, "syria".data,
   "iraq".data, "afghanistan".data, "military".data, "troops".data,
   "forces".data, "combat".data, "operations".data, "missiles".data,
   "nuclear".data, "weapons".data, "terrorist".data, "proxies".data,
   "regime".data, "administration".data, "congress".data, "senate".data,
   "president".data, "commander".data, "homeland".data, "vessels".data,
   "international".data, "shipping".data, "naval".data, "attack".data,
   "strike".data]

/-- `\bsociety will (?:turn into|become)\s+\w+\s+(?:ruled by|run by)`
(5th entry of `ABSURD_OUTCOME_PHRASES`), searched in the lowered text. -/
def societyWillMatch (l : Str) : Bool :=
  let S1 := litP l "society will ".data (bndP l (allPos l))
  let S2 := altP (litP l "turn into".data S1) (litP l "become".data S1)
  let S3 := wsPlusP l (wordPlusP l (wsPlusP l S2))
  someMatch (altP (litP l "ruled by".data S3) (litP l "run by".data S3))

/-- `\b(melt|explode|implode)\s+into\s+(?:cats|zombies|bananas)\b`
(6th entry of `ABSURD_OUTCOME_PHRASES`). -/
def meltIntoMatch (l : Str) : Bool :=
  let S0 := bndP l (allPos l)
  let S1 := altP (litP l "melt".data S0)
    (altP (litP l "explode".data S0) (litP l "implode".data S0))
  let S2 := wsPlusP l (litP l "into".data (wsPlusP l S1))
  someMatch (bndP l (altP (litP l "cats".data S2)
    (altP (litP l "zombies".data S2) (litP l "bananas".data S2))))

/-- `\bend of (?:the )?universe\b` (7th entry of `ABSURD_OUTCOME_PHRASES`). -/
def endOfUniverseMatch (l : Str) : Bool :=
  let S1 := litP l "end of ".data (bndP l (allPos l))
  someMatch (bndP l (litP l "universe".data (optP (litP l "the ".data) S1)))

/-- `\bliterally\s+(?:everything|the worst)\b`
(9th entry of `ABSURD_OUTCOME_PHRASES`). -/
def literallyMatch (l : Str) : Bool :=
  let S1 := wsPlusP l (litP l "literally".data (bndP l (allPos l)))
  someMatch (bndP l (altP (litP l "everything".data S1) (litP l "the worst".data S1)))

/-- The `ABSURD_OUTCOME_PHRASES` loop of `_absurdity_score`: the source breaks
at the first matching pattern and sets the score to 0.85 either way, so only
whether some pattern matches is observable. -/
def absurdOutcomeMatch (l : Str) : Bool :=
  containsBounded l "ruled by cats".data ||
  containsWordStart l "zombie".data ||
  containsBounded l "chaos ruled by".data ||
  containsBounded l "universe will collapse".data ||
  societyWillMatch l ||
  meltIntoMatch l ||
  endOfUniverseMatch l ||
  containsBounded l "death panel".data ||
  literallyMatch l

/-- `INCONGRUITY_PATTERN` = `\b(?:ruled by|run by|led by|controlled by|governed
by)\s+(\w+)` with IGNORECASE, iterated by `finditer` over the original text,
each captured group lowered and tested against `ABSURD_NOUNS`.  Matching over
the lowered text is equivalent (lowering preserves word characters and the
pattern's literals are lowercase); the greedy `\w+` at the end of the pattern
captures the maximal word run. -/
def incongruityNounMatch (l : Str) : Bool :=
  let S0 := bndP l (allPos l)
  let S1 := altP (litP l "ruled by".data S0)
    (altP (litP l "run by".data S0)
      (altP (litP l "led by".data S0)
        (altP (litP l "controlled by".data S0) (litP l "governed by".data S0))))
  (wsPlusP l S1).any (fun i =>
    let w := (l.drop i).takeWhile isWordChar
    decide (1 ≤ w.length) && ABSURD_NOUNS.contains w)

/-- `DISPROPORTIONATE_ABSURD` of `satire.py` (IGNORECASE, DOTALL), searched in
the lowered text. -/
def disproportionateMatch (l : Str) : Bool :=
  let S0 := bndP l (allPos l)
  let S1 := altP (litP l "if".data S0) (litP l "when".data S0)
  let S3 := optP (fun S => wsPlusP l (litP l "we".data S)) (wsPlusP l S1)
  let S4 := altP (litP l "allow".data S3)
    (altP (litP l "pass".data S3) (litP l "do".data S3))
  let S6 := optP (fun S => wsPlusP l (litP l "one".data S)) (wsPlusP l S4)
  let S7 := altP (litP l "small".data S6)
    (altP (litP l "tiny".data S6)
      (altP (litP l "minor".data S6) (litP l "single".data S6)))
  let S9 := repAtMost (fun S => wsPlusP l (wordPlusP l S)) 3 (wsPlusP l S7)
  let S10 := altP (litP l "change".data S9)
    (altP (litP l "policy".data S9) (litP l "thing".data S9))
  let S11 := dotStarP l (bndP l S10)
  let T1 := litP l "collapse".data
    (wsPlusP l (litP l "will".data (wsPlusP l (litP l "universe".data S11))))
  let T2 := litP l "by".data
    (wsPlusP l (litP l "ruled".data (wsPlusP l (litP l "chaos".data S11))))
  let T3p := wsPlusP l (litP l "by".data (wsPlusP l (litP l "ruled".data S11)))
  let T3 := altP (litP l "cats".data T3p) (litP l "zombies".data T3p)
  someMatch (altP T1 (altP T2 T3))

/-- `\bbecause\s+it\s+completely\s+ignores\b` (1st `CONTRADICTION_MARKERS`). -/
def becauseIgnoresMatch (l : Str) : Bool :=
  let S := wsPlusP l (litP l "it".data
    (wsPlusP l (litP l "because".data (bndP l (allPos l)))))
  someMatch (bndP l (litP l "ignores".data (wsPlusP l (litP l "completely".data S))))

/-- `\bperfect\s+because\s+it\s+(?:ignores|rejects)\b`
(2nd `CONTRADICTION_MARKERS`). -/
def perfectBecauseMatch (l : Str) : Bool :=
  let S := wsPlusP l (litP l "it".data (wsPlusP l (litP l "because".data
    (wsPlusP l (litP l "perfect".data (bndP l (allPos l)))))))
  someMatch (bndP l (altP (litP l "ignores".data S) (litP l "rejects".data S)))

/-- `\bthe\s+best\s+plan\s+that\s+ignores\b` (3rd `CONTRADICTION_MARKERS`). -/
def bestPlanMatch (l : Str) : Bool :=
  let S := wsPlusP l (litP l "that".data (wsPlusP l (litP l "plan".data
    (wsPlusP l (litP l "best".data (wsPlusP l (litP l "the".data
      (bndP l (allPos l)))))))))
  someMatch (bndP l (litP l "ignores".data S))

/-- `_absurdity_score` of `satire.py`: the three signals are maxed. -/
def absurdity_score (text : Str) : ℚ :=
  let l := lowerStr text
  let s1 : ℚ := if absurdOutcomeMatch l then 0.85 else 0
  let s2 : ℚ := if incongruityNounMatch l then 0.9 else 0
  let s3 : ℚ := if disproportionateMatch l then 0.8 else 0
  max (max s1 s2) s3

/-- `_incongruity_score` of `satire.py`. -/
def incongruity_score (text : Str) : ℚ :=
  let l := lowerStr text
  if becauseIgnoresMatch l || perfectBecauseMatch l || bestPlanMatch l then 0.8 else 0

/-- Alternatives of the catastrophe-word pattern
`\b(?:collapse|destroy|chaos|catastrophe|certain death)\b`. -/
def catastropheWords : List Str :=
  ["collapse".data, "destroy".data, "chaos".data, "catastrophe".data,
   "certain death".data]

/-- `len(re.findall(...))` for the catastrophe pattern.  Matches of this
pattern can never overlap (every alternative is delimited by `\b` and no
alternative restarts inside another: the only interior boundary position, at
`death` inside `certain death`, begins no alternative), so the non-overlapping
`findall` count equals the number of positions where some alternative has a
bounded match. -/
def catastropheCount (l : Str) : Nat :=
  (allPos l).countP (fun i => catastropheWords.any (fun w => boundedAt l w i))

/-- `\b(?:thousands|millions)\s+(?:and\s+)?(?:thousands|millions)\b`. -/
def magnitudePairMatch (l : Str) : Bool :=
  let S0 := bndP l (allPos l)
  let S1 := altP (litP l "thousands".data S0) (litP l "millions".data S0)
  let S2 := optP (fun S => wsPlusP l (litP l "and".data S)) (wsPlusP l S1)
  someMatch (bndP l (altP (litP l "thousands".data S2) (litP l "millions".data S2)))

/-- `_hyperbole_score` of `satire.py`. -/
def hyperbole_score (text : Str) : ℚ :=
  let l := lowerStr text
  let s1 : ℚ :=
    if ["never", "always", "all", "everyone", "everybody"].any
        (fun w => containsBounded l w.data) then 0.2 else 0
  let s2 : ℚ := min (0.2 + (catastropheCount l : ℚ) * 0.1) 0.4
  let s3 : ℚ := if magnitudePairMatch l then 0.15 else 0
  let s4 : ℚ :=
    if ["perfect", "completely", "totally"].any
        (fun w => containsBounded l w.data) then 0.15 else 0
  min (max (s1 + s2 + s3 + s4) 0.2) 0.7

/-- `set(re.findall(r"\b[a-z]{4,}\b", lower))`: a match of that pattern is a
maximal word-character run that consists of letters only and has length at
least 4 (interior positions of a run are not boundaries). -/
def context_words (l : Str) : List Str :=
  ((wordRuns l).filter (fun w =>
    decide (4 ≤ w.length) && w.all (fun c => 'a' ≤ c && c ≤ 'z'))).dedup

/-- `_context_plausibility_score` of `satire.py`. -/
def context_plausibility_score (text : Str) : ℚ :=
  let l := lowerStr text
  let overlap := ((context_words l).filter (GEOPOLITICAL_TERMS.contains ·)).length
  if overlap ≥ 5 then 0.9
  else if overlap ≥ 3 then 0.7
  else if overlap ≥ 1 then 0.5
  else 0.2

/-- `SatireSignal` of `satire.py`. -/
structure SatireSignal where
  name : Str
  description : Str
  score : ℚ
deriving DecidableEq, Repr

/-- `SatireAnalyzer.analyze` of `satire.py`. -/
def analyze (text : Str) : ℚ × List SatireSignal × Str :=
  if text.isEmpty || (pyStrip text).isEmpty then (0, [], "Uncertain".data)
  else
    let H := hyperbole_score text
    let A := absurdity_score text
    let I := incongruity_score text
    let C := context_plausibility_score text
    let signals : List SatireSignal :=
      (if A > 0 then
        [⟨"Absurdity".data, "Semantic impossibility or playful exaggeration".data, A⟩]
       else []) ++
      (if I > 0.5 then
        [⟨"Incongruity".data, "Self-undermining or internal contradiction".data, I⟩]
       else []) ++
      (if H > 0.3 then
        [⟨"Hyperbole".data, "Intensifiers, absolutism (also common in rhetoric)".data, H⟩]
       else []) ++
      (if C > 0.5 then
        [⟨"Context plausibility".data,
          "Real-world political/military discourse — lowers satire likelihood".data, C⟩]
       else [])
    let raw := H * (A + 1.5 * I)
    let divisor : ℚ := 0.5 + C
    let probability := min (raw / divisor) 0.95
    let probability := if A < 0.4 ∧ I < 0.4 then min probability 0.25 else probability
    let content_type : Str :=
      if probability ≥ 0.5 then "Possibly Satire / Hyperbole".data
      else if probability ≥ 0.25 then "Uncertain (some satire signals)".data
      else "Persuasive Rhetoric (low satire probability)".data
    (probability, signals, content_type)

end Satire

/-! ## Text utilities (`utils/text_utils.py`) -/

namespace TextUtils

/-- Sentence-ending characters `[.!?]`. -/
def isTerm (c : Char) : Bool := c = '.' || c = '!' || c = '?'

/-- `finditer` of `([^.!?]*[.!?])(?!\w)(?:\s+|$)` (DOTALL) over `s`, returning
the group-1 spans `(start, end)`.  At a search position `pos` the run of
non-terminator characters is the same for every candidate start in
`[pos, k]` (`k` the next terminator), so a match attempt succeeds at the
leftmost start `pos` iff the zero-width conditions at `k` hold; on failure the
scan resumes after the failed terminator, on success after the whitespace
consumed by `\s+`.  `fuel` only bounds the recursion (`length + 1` suffices
because the position strictly increases). -/
def rawSpans (s : Str) : Nat → Nat → List (Nat × Nat)
  | _, 0 => []
  | pos, fuel + 1 =>
    let nonterm := ((s.drop pos).takeWhile (fun c => !isTerm c)).length
    let k := pos + nonterm
    if k < s.length then
      let after := k + 1
      -- `(?!\w)`: the next character must not be a word character
      -- (`wcAt` is false past the end of the text);
      -- `(?:\s+|$)`: end of text, or at least one whitespace character.
      if wcAt s after = false ∧ (after = s.length ∨ 1 ≤ wsRunLen s after) then
        (pos, after) :: rawSpans s (after + wsRunLen s after) fuel
      else rawSpans s (k + 1) fuel
    else []

/-- One step of the result-building loop of `split_sentences_with_offsets`. -/
def spanStep (text : Str) (result : List (Str × Nat × Nat)) (sp : Nat × Nat) :
    List (Str × Nat × Nat) :=
  let g := (text.drop sp.1).take (sp.2 - sp.1)
  let s := pyStrip g
  if !s.isEmpty ∧ 2 < s.length then result ++ [(s, sp.1, sp.2)]
  else if !s.isEmpty ∧ result ≠ [] then
    -- merge a very short fragment (likely an abbreviation) with the
    -- previous sentence: `f"{prev_sent} {s}".strip()`
    result.dropLast ++
      (match result.getLast? with
       | some (ps, pstart, _) => [(pyStrip (ps ++ ' ' :: s), pstart, sp.2)]
       | none => [])
  else result

/-- `split_sentences_with_offsets` of `text_utils.py`. -/
def split_sentences_with_offsets (text : Str) : List (Str × Nat × Nat) :=
  if text.isEmpty || (pyStrip text).isEmpty then []
  else
    let result := (rawSpans text 0 (text.length + 1)).foldl (spanStep text) []
    -- `if not result and text.strip()`: the strip is non-empty here
    if result.isEmpty then [(pyStrip text, 0, text.length)] else result

/-- `split_sentences` of `text_utils.py`. -/
def split_sentences (text : Str) : List Str :=
  (split_sentences_with_offsets text).map (·.1)

/-- `sentence_containing_offset` of `text_utils.py`. -/
def sentence_containing_offset (xs : List (Str × Nat × Nat)) (pos : Nat) : Str :=
  match xs.find? (fun t => decide (t.2.1 ≤ pos) && decide (pos < t.2.2)) with
  | some t => t.1
  | none =>
    match xs with
    | [] => []
    | x :: _ => x.1

/-- `count_words` of `text_utils.py`. -/
def count_words (text : Str) : Nat :=
  if text.isEmpty || (pyStrip text).isEmpty then 0 else (pySplit text).length

/-- `count_sentences` of `text_utils.py`. -/
def count_sentences (text : Str) : Nat := (split_sentences text).length

end TextUtils

/-! ## Logical-fallacy analyzer (`analyzers/logical_fallacy.py`) -/

/-- `FallacyFlag` of `models/report.py`. -/
structure FallacyFlag where
  name : Str
  pattern_hint : Str
  sentence : Str
  confidence : ℚ
deriving DecidableEq, Repr

namespace LogicalFallacy

/-- `m.start()` of `FALSE_DILEMMA_PATTERN.search` = `\beither\b.*\bor\b`
(IGNORECASE, DOTALL), on the lowered text: the leftmost bounded `either`
followed (at distance ≥ its own length) by a bounded `or`. -/
def falseDilemmaStart (l : Str) : Option Nat :=
  (allPos l).find? (fun i =>
    boundedAt l "either".data i &&
    (allPos l).any (fun j => decide (i + 6 ≤ j) && boundedAt l "or".data j))

/-- The groups of `EITHER_OR_CAPTURE.search` = `\beither\b(.+?)\bor\b(.+)$`
(IGNORECASE, DOTALL), on the lowered text.  The leftmost match starts at the
first bounded `either` after which the rest of the pattern can match; the lazy
`(.+?)` makes group 1 end at the first bounded `or` at distance ≥ 7 from the
match start that still leaves one character for `(.+)$`. -/
def eitherOrCapture (l : Str) : Option (Str × Str) :=
  let restOk := fun (i j : Nat) =>
    decide (i + 7 ≤ j) && boundedAt l "or".data j && decide (j + 2 < l.length)
  match (allPos l).find? (fun i =>
      boundedAt l "either".data i && (allPos l).any (restOk i)) with
  | none => none
  | some i =>
    match (allPos l).find? (restOk i) with
    | none => none
    | some j => some ((l.drop (i + 6)).take (j - (i + 6)), l.drop (j + 2))

/-- The contraction alternatives of the first `GENUINE_DICHOTOMY_PATTERNS`
entry (`doesn't`, `don't`, …). -/
def negContractions : List Str :=
  (["doesn", "don", "isn", "aren", "wasn", "weren", "won", "can", "couldn",
    "shouldn", "wouldn", "hasn", "haven", "hadn", "mustn"]).map
    (fun w => w.data ++ apos :: "t".data)

/-- `\bno\b(?!\s+one|\s+longer)`: a bounded `no` whose negative lookahead
fails.  The lookahead `\s+one|\s+longer` succeeds iff whitespace then `one` or
`longer` follows (only the full whitespace run can precede the literal, but
the embedding keeps the existential form of `\s+`). -/
def noNotFollowed (t : Str) : Bool :=
  (allPos t).any (fun i =>
    boundedAt t "no".data i &&
    !(someMatch (altP (litP t "one".data (wsPlusP t [i + 2]))
        (litP t "longer".data (wsPlusP t [i + 2])))))

/-- The `GENUINE_DICHOTOMY_PATTERNS` test on the second clause. -/
def negationInClause (t : Str) : Bool :=
  negContractions.any (fun w => containsBounded t w) ||
  containsBounded t "not".data ||
  noNotFollowed t ||
  containsBounded t "never".data

/-- `COMPLEMENTARY_PAIRS` of `logical_fallacy.py`. -/
def COMPLEMENTARY_PAIRS : List (Str × Str) :=
  [("true".data, "false".data), ("false".data, "true".data),
   ("yes".data, "no".data), ("no".data, "yes".data)]

/-- `_is_genuine_dichotomy` of `logical_fallacy.py`.  The source matches the
original text with IGNORECASE and lowers both captured groups afterwards;
matching on the lowered text yields the already-lowered groups (lowering
preserves word characters, whitespace and punctuation). -/
def is_genuine_dichotomy (text : Str) : Bool :=
  match eitherOrCapture (lowerStr text) with
  | none => false
  | some (g1, g2) =>
    let first := pyRstrip (pyStrip g1) ".,;:!?".data
    let second := pyRstrip (pyStrip g2) ".,;:!?".data
    if negationInClause second then true
    else
      let fw := (pySplit first).getLastD []
      let sw := (pySplit second).headD []
      COMPLEMENTARY_PAIRS.contains (fw, sw)

/-- `FEAR_TERMS` of `logical_fallacy.py` (a Python `set`; embedded in literal
order — no settled claim depends on the unspecified iteration order). -/
def FEAR_TERMS : List Str :=
  ["collapse".data, "destroy".data, "threat".data, "danger".data,
   "catastrophe".data, "crisis".data]

/-- The `next(...)` of the Appeal-to-Fear branch: the search position of
`\b term \b` for the first fear term contained in the text (`None` when that
term occurs only inside a longer word). -/
def fearSearchPos (l : Str) : Option Nat :=
  match FEAR_TERMS.find? (fun t => containsSub l t) with
  | none => none
  | some t => (allPos l).find? (boundedAt l t)

/-- `m.start()` of `ATTACK_PATTERNS[0].search` = `\bthey\s+want\s+to\s+\w+`
(IGNORECASE): the leftmost start where the whole pattern matches. -/
def attackStart (l : Str) : Option Nat :=
  (allPos l).find? (fun i =>
    someMatch (wordPlusP l (wsPlusP l (litP l "to".data
      (wsPlusP l (litP l "want".data
        (wsPlusP l (litP l "they".data (bndP l [i])))))))))

/-- `LogicalFallacyAnalyzer.analyze` of `logical_fallacy.py`. -/
def analyze (text : Str) : List FallacyFlag :=
  let l := lowerStr text
  let sentences := TextUtils.split_sentences_with_offsets text
  let sentAt := fun (pos : Nat) => TextUtils.sentence_containing_offset sentences pos
  let flags1 : List FallacyFlag :=
    match falseDilemmaStart l with
    | some i =>
      if !is_genuine_dichotomy text then
        [⟨"False Dilemma".data, "pattern: either X or Y".data, sentAt i, 0.80⟩]
      else []
    | none => []
  let flags2 : List FallacyFlag :=
    if FEAR_TERMS.any (fun t => containsSub l t) then
      let sent :=
        match fearSearchPos l with
        | some pos => sentAt pos
        | none =>
          match sentences with
          | [] => []
          | x :: _ => x.1
      [⟨"Appeal to Fear".data, "threat language".data, sent, 0.65⟩]
    else []
  let flags3 : List FallacyFlag :=
    match attackStart l with
    | some i =>
      [⟨"Ad Hominem / Attack".data, "they want to [verb] pattern".data, sentAt i, 0.75⟩]
    | none => []
  flags1 ++ flags2 ++ flags3

end LogicalFallacy

/-! ## Hidden-assumption extractor (`analyzers/hidden_assumptions.py`) -/

/-- `AssumptionFlag` of `models/report.py`. -/
structure AssumptionFlag where
  description : Str
  sentence : Str
  confidence : ℚ
deriving DecidableEq, Repr

namespace HiddenAssumptions

/-- `FACTIVE_VERBS` (a `frozenset`; embedded in literal order). -/
def FACTIVE_VERBS : List Str :=
  ["know".data, "knew".data, "knows".data, "realize".data, "realized".data,
   "realizes".data, "discover".data, "discovered".data, "discovers".data,
   "regret".data, "regrets".data, "regretted".data, "acknowledge".data,
   "acknowledged".data, "acknowledges".data, "admit".data, "admits".data,
   "admitted".data, "recognize".data, "recognized".data, "recognizes".data,
   "notice".data, "noticed".data, "notices".data]

/-- `IMPLICATIVE_VERBS`. -/
def IMPLICATIVE_VERBS : List Str :=
  ["manage".data, "managed".data, "manages".data, "avoid".data, "avoided".data,
   "avoids".data, "forget".data, "forgot".data, "forgets".data,
   "forgotten".data, "happen".data, "happened".data, "happens".data]

/-- `CHANGE_OF_STATE_VERBS`. -/
def CHANGE_OF_STATE_VERBS : List Str :=
  ["begin".data, "began".data, "begins".data, "start".data, "started".data,
   "starts".data, "stop".data, "stopped".data, "stops".data, "continue".data,
   "continued".data, "continues".data, "resume".data, "resumed".data,
   "resumes".data, "leave".data, "left".data, "leaves".data, "arrive".data,
   "arrived".data, "arrives".data]

/-- `REPETITION_WORDS`. -/
def REPETITION_WORDS : List Str :=
  ["again".data, "still".data, "return".data, "returned".data, "restore".data,
   "restored".data]

/-- `EPISTEMIC_SHORTCUTS`. -/
def EPISTEMIC_SHORTCUTS : List Str :=
  ["obviously".data, "clearly".data, "certainly".data, "of course".data,
   "needless to say".data, "it goes without saying".data, "as we all know".data,
   "everyone knows".data, "everybody knows".data, "as everyone knows".data,
   "self-evident".data, "evidently".data]

/-- `UNIVERSAL_QUANTIFIERS` (the two-word entry `no one` can never equal a
single word of `_get_words_lower`, mirroring the source's dead entry). -/
def UNIVERSAL_QUANTIFIERS : List Str :=
  ["everyone".data, "everybody".data, "nobody".data, "no one".data,
   "always".data, "never".data, "all".data, "none".data, "anyone".data,
   "anybody".data]

/-- `HEDGING_WORDS` of `hidden_assumptions.py`. -/
def HEDGING_WORDS : List Str :=
  ["perhaps".data, "maybe".data, "might".data, "could".data, "possibly".data,
   "sometimes".data, "allegedly".data]

/-- `_get_words_lower`: `set(re.findall(r"\b[a-z]+\b", text.lower()))` — the
maximal word-character runs that consist of letters only, deduplicated. -/
def get_words_lower (text : Str) : List Str :=
  ((wordRuns (lowerStr text)).filter (fun w =>
    w.all (fun c => 'a' ≤ c && c ≤ 'z'))).dedup

/-- `_hedging_penalty` of `hidden_assumptions.py`. -/
def hedging_penalty (sentence : Str) : ℚ :=
  let words := (wordRuns (lowerStr sentence)).dedup
  if HEDGING_WORDS.any (fun h => words.contains h) then 0.1 else 0

/-- `_AssumptionMatch` of `hidden_assumptions.py`. -/
structure AssumptionMatch where
  description : Str
  trigger : Option Str
  sentence : Str
  confidence : ℚ
deriving DecidableEq, Repr

def descFactive : Str :=
  "Presupposition: treats something as already established (factive verb)".data

def descImplicative : Str :=
  "Presupposition: implies unstated prior action or attempt (implicative verb)".data

def descChangeOfState : Str :=
  "Presupposition: assumes a prior state (change-of-state verb)".data

def descRepetition : Str :=
  "Presupposition: implies prior occurrence (repetition/iteration)".data

def descEpistemic : Str :=
  "Presents claim as obvious without justification (epistemic shortcut)".data

def descUniversal : Str :=
  "Unstated universal claim: implies shared belief or blanket generalization".data

def descVague : Str := "Vague authority invoked without specification".data

def descConclusion : Str :=
  "Conclusion marker suggests inference without full stated premises (enthymeme)".data

def descLoaded : Str :=
  "Loaded question: implies an assumption in the question itself".data

def descSuggestive : Str :=
  "Suggestive question: stacked alternatives implying negative traits".data

/-- `_check_presupposition_triggers` of `hidden_assumptions.py`.  Each
`frozenset` loop breaks at its first hit, embedded by `find?` in literal
order. -/
def check_presupposition_triggers (sentence : Str) : List AssumptionMatch :=
  let lower := lowerStr sentence
  let words := get_words_lower sentence
  let m1 : List AssumptionMatch :=
    match FACTIVE_VERBS.find? (fun w =>
        words.contains w || containsSub lower (w ++ 's' :: [' ']) ||
        containsSub lower (' ' :: w ++ [' ']) ||
        containsSub lower (' ' :: w ++ "ed ".data)) with
    | some w => [⟨descFactive, some w, sentence, 0.75 - hedging_penalty sentence⟩]
    | none => []
  let m2 : List AssumptionMatch :=
    match IMPLICATIVE_VERBS.find? (fun w => words.contains w) with
    | some w => [⟨descImplicative, some w, sentence, 0.65 - hedging_penalty sentence⟩]
    | none => []
  let m3 : List AssumptionMatch :=
    match CHANGE_OF_STATE_VERBS.find? (fun w => words.contains w) with
    | some w => [⟨descChangeOfState, some w, sentence, 0.68 - hedging_penalty sentence⟩]
    | none => []
  let m4 : List AssumptionMatch :=
    match REPETITION_WORDS.find? (fun w => containsBounded lower w) with
    | some w => [⟨descRepetition, some w, sentence, 0.70 - hedging_penalty sentence⟩]
    | none => []
  m1 ++ m2 ++ m3 ++ m4

/-- `_check_epistemic_shortcuts` of `hidden_assumptions.py`. -/
def check_epistemic_shortcuts (sentence : Str) : List AssumptionMatch :=
  let lower := lowerStr sentence
  match EPISTEMIC_SHORTCUTS.find? (fun p => containsSub lower p) with
  | some p => [⟨descEpistemic, some p, sentence, 0.80 - hedging_penalty sentence⟩]
  | none => []

/-- `_check_universal_quantifiers` of `hidden_assumptions.py`. -/
def check_universal_quantifiers (sentence : Str) : List AssumptionMatch :=
  let words := get_words_lower sentence
  match UNIVERSAL_QUANTIFIERS.find? (fun w => words.contains w) with
  | some w => [⟨descUniversal, some w, sentence, 0.55 - hedging_penalty sentence⟩]
  | none => []

/-- End position of a greedy `\s+` followed by the first matching alternative
of `verbs` (the alternatives begin with non-whitespace, so the whole
whitespace run is consumed). -/
def wsThenAlt (l : Str) (j : Nat) (verbs : List Str) : Option Nat :=
  let r := wsRunLen l j
  if 1 ≤ r then
    (verbs.find? (fun v => occursAt l v (j + r))).map (fun v => j + r + v.length)
  else none

/-- `\bexperts?\b` at start `i`: greedy `s?` prefers the longer form. -/
def vague1End (l : Str) (i : Nat) : Option Nat :=
  if boundedAt l "experts".data i then some (i + 7)
  else if boundedAt l "expert".data i then some (i + 6)
  else none

/-- `\bstudies?\s+(?:show|suggest|indicate|find)` at start `i`. -/
def vague2End (l : Str) (i : Nat) : Option Nat :=
  if boundaryAt l i && occursAt l "studies".data i then
    match wsThenAlt l (i + 7) ["show".data, "suggest".data, "indicate".data, "find".data] with
    | some e => some e
    | none =>
      if occursAt l "studie".data i then
        wsThenAlt l (i + 6) ["show".data, "suggest".data, "indicate".data, "find".data]
      else none
  else if boundaryAt l i && occursAt l "studie".data i then
    wsThenAlt l (i + 6) ["show".data, "suggest".data, "indicate".data, "find".data]
  else none

/-- `\bmany\s+(?:people|believe|say|think)` at start `i`. -/
def vague3End (l : Str) (i : Nat) : Option Nat :=
  if boundaryAt l i && occursAt l "many".data i then
    wsThenAlt l (i + 4) ["people".data, "believe".data, "say".data, "think".data]
  else none

/-- `\b(?:some|most)\s+people\s+(?:believe|say|think)` at start `i`. -/
def vague4End (l : Str) (i : Nat) : Option Nat :=
  if boundaryAt l i && (occursAt l "some".data i || occursAt l "most".data i) then
    match wsThenAlt l (i + 4) ["people".data] with
    | some j => wsThenAlt l j ["believe".data, "say".data, "think".data]
    | none => none
  else none

/-- The right single quotation mark accepted by the source's `['’]`. -/
def rsq : Char := Char.ofNat 0x2019

/-- `\b(?:it['’]?s\s+)?widely\s+(?:known|believed|accepted)\b` at start `i`:
the greedy optional prefix is tried first. -/
def vague5End (l : Str) (i : Nat) : Option Nat :=
  let tail := fun (j : Nat) =>
    if occursAt l "widely".data j then
      match wsThenAlt l (j + 6) ["known".data, "believed".data, "accepted".data] with
      | some e => if boundaryAt l e then some e else none
      | none => none
    else none
  if boundaryAt l i then
    let withPrefix :=
      if occursAt l "it".data i then
        let j := if (l.get? (i + 2)).any (fun c => c = apos || c = rsq) then i + 3 else i + 2
        if occursAt l "s".data j then
          let r := wsRunLen l (j + 1)
          if 1 ≤ r then tail (j + 1 + r) else none
        else none
      else none
    match withPrefix with
    | some e => some e
    | none => tail i
  else none

/-- `\bthe\s+people\b` at start `i`. -/
def vague6End (l : Str) (i : Nat) : Option Nat :=
  if boundaryAt l i && occursAt l "the".data i then
    match wsThenAlt l (i + 3) ["people".data] with
    | some e => if boundaryAt l e then some e else none
    | none => none
  else none

/-- `\bresearch\s+(?:shows|suggests|indicates)\b` at start `i`. -/
def vague7End (l : Str) (i : Nat) : Option Nat :=
  if boundaryAt l i && occursAt l "research".data i then
    match wsThenAlt l (i + 8) ["shows".data, "suggests".data, "indicates".data] with
    | some e => if boundaryAt l e then some e else none
    | none => none
  else none

/-- The leftmost match `(start, end)` of a pattern given its
match-at-position function. -/
def leftmost (l : Str) (patEnd : Str → Nat → Option Nat) : Option (Nat × Nat) :=
  (allPos l).findSome? (fun i => (patEnd l i).map (fun e => (i, e)))

/-- `_check_vague_authority` of `hidden_assumptions.py`: the first pattern (in
declaration order) with a match contributes one match whose trigger is
`m.group(0)[:30]`, taken from the original sentence (the patterns carry
IGNORECASE, so positions are found on the lowered text). -/
def check_vague_authority (sentence : Str) : List AssumptionMatch :=
  let l := lowerStr sentence
  let pats := [vague1End, vague2End, vague3End, vague4End, vague5End,
    vague6End, vague7End]
  match pats.findSome? (fun p => leftmost l p) with
  | some (i, e) =>
    [⟨descVague, some ((sentence.drop i).take (min (e - i) 30)), sentence,
      0.65 - hedging_penalty sentence⟩]
  | none => []

/-- The alternatives of `CONCLUSION_MARKERS`, in alternation order. -/
def conclusionWords : List Str :=
  ["therefore".data, "thus".data, "hence".data, "so".data, "consequently".data]

/-- Leftmost match of `\b(therefore|thus|hence|so|consequently)\b`
(IGNORECASE), returning the start and the (lowered) matched alternative. -/
def conclusionSearch (l : Str) : Option (Nat × Str) :=
  (allPos l).findSome? (fun i =>
    (conclusionWords.find? (fun w => boundedAt l w i)).map (fun w => (i, w)))

/-- `_check_conclusion_markers` of `hidden_assumptions.py`: `m.group(1)` is
taken from the original sentence; the base confidence depends on the lowered
marker. -/
def check_conclusion_markers (sentence : Str) : List AssumptionMatch :=
  match conclusionSearch (lowerStr sentence) with
  | some (i, w) =>
    let marker := w
    let base : ℚ :=
      if marker = "therefore".data ∨ marker = "thus".data ∨ marker = "hence".data
      then 0.70 else 0.55
    [⟨descConclusion, some ((sentence.drop i).take w.length), sentence,
      base - hedging_penalty sentence⟩]
  | none => []

/-- `\bwhy\s+do\s+you\s+still\s+` (1st `LOADED_QUESTION_PATTERNS`). -/
def loaded1 (l : Str) : Bool :=
  let S := wsPlusP l (litP l "still".data (wsPlusP l (litP l "you".data
    (wsPlusP l (litP l "do".data (wsPlusP l (litP l "why".data
      (bndP l (allPos l)))))))))
  someMatch S

/-- `\bwhen\s+did\s+you\s+stop\s+` (2nd `LOADED_QUESTION_PATTERNS`). -/
def loaded2 (l : Str) : Bool :=
  let S := wsPlusP l (litP l "stop".data (wsPlusP l (litP l "you".data
    (wsPlusP l (litP l "did".data (wsPlusP l (litP l "when".data
      (bndP l (allPos l)))))))))
  someMatch S

/-- `\bhow\s+(?:could|can)\s+you\s+(?:possibly\s+)?`
(3rd `LOADED_QUESTION_PATTERNS`; the trailing optional group cannot affect
whether a match exists). -/
def loaded3 (l : Str) : Bool :=
  let S1 := wsPlusP l (litP l "how".data (bndP l (allPos l)))
  let S2 := wsPlusP l (altP (litP l "could".data S1) (litP l "can".data S1))
  someMatch (wsPlusP l (litP l "you".data S2))

/-- `\bis\s+\w+\s+(?:really|actually)\s+(?:so|that)\s+`
(4th `LOADED_QUESTION_PATTERNS`). -/
def loaded4 (l : Str) : Bool :=
  let S1 := wsPlusP l (wordPlusP l (wsPlusP l (litP l "is".data
    (bndP l (allPos l)))))
  let S2 := wsPlusP l (altP (litP l "really".data S1) (litP l "actually".data S1))
  someMatch (wsPlusP l (altP (litP l "so".data S2) (litP l "that".data S2)))

/-- `SUGGESTIVE_QUESTION_PATTERN` =
`\bis\s+(?:he|she|they|it)\s+(?:\w+\s+)?(?:or\s+)?(?:\w+\s+)?\?`. -/
def suggestiveMatch (l : Str) : Bool :=
  let S1 := wsPlusP l (litP l "is".data (bndP l (allPos l)))
  let S2 := altP (litP l "he".data S1) (altP (litP l "she".data S1)
    (altP (litP l "they".data S1) (litP l "it".data S1)))
  let S3 := wsPlusP l S2
  let S4 := optP (fun S => wsPlusP l (wordPlusP l S)) S3
  let S5 := optP (fun S => wsPlusP l (litP l "or".data S)) S4
  let S6 := optP (fun S => wsPlusP l (wordPlusP l S)) S5
  someMatch (litP l "?".data S6)

/-- `_check_loaded_questions` of `hidden_assumptions.py` (the loaded patterns
return immediately; the suggestive pattern is only reached otherwise). -/
def check_loaded_questions (sentence : Str) : List AssumptionMatch :=
  if !containsSub sentence "?".data then []
  else
    let l := lowerStr sentence
    if loaded1 l || loaded2 l || loaded3 l || loaded4 l then
      [⟨descLoaded, none, sentence, 0.85 - hedging_penalty sentence⟩]
    else if suggestiveMatch l then
      [⟨descSuggestive, none, sentence, 0.75 - hedging_penalty sentence⟩]
    else []

/-- The dedup key: `f"{description} [trigger: '{trigger}']"` when a trigger is
present, else the description. -/
def fullDescription (m : AssumptionMatch) : Str :=
  match m.trigger with
  | some t => m.description ++ " [trigger: ".data ++ apos :: t ++ apos :: "]".data
  | none => m.description

/-- The dedup-and-clamp loop of `HiddenAssumptionExtractor.analyze`. -/
def dedupMatches : List AssumptionMatch → List Str → List AssumptionFlag
  | [], _ => []
  | m :: rest, seen =>
    let full := fullDescription m
    if seen.contains full then dedupMatches rest seen
    else ⟨full, m.sentence, max 0 (min 0.95 m.confidence)⟩ ::
      dedupMatches rest (full :: seen)

/-- `HiddenAssumptionExtractor.analyze` of `hidden_assumptions.py`. -/
def analyze (text : Str) : List AssumptionFlag :=
  if text.isEmpty || (pyStrip text).isEmpty then []
  else
    let sentences := TextUtils.split_sentences text
    let all_matches := sentences.flatMap (fun s =>
      check_presupposition_triggers s ++ check_epistemic_shortcuts s ++
      check_universal_quantifiers s ++ check_vague_authority s ++
      check_conclusion_markers s ++ check_loaded_questions s)
    dedupMatches all_matches []

end HiddenAssumptions

/-! ## Hidden-agenda analyzer (`analyzers/hidden_agenda.py`) -/

/-- `AgendaFlag` of `models/report.py`: the `sentence` field has no default
value (only `confidence` does), so constructing an `AgendaFlag` without it
raises `TypeError` in Python. -/
structure AgendaFlag where
  family : Str
  technique : Str
  pattern_hint : Str
  sentence : Str
  confidence : ℚ
deriving DecidableEq, Repr

namespace HiddenAgenda

/-- Generalized `+`-repetition of a character class. -/
def runPlusP (s : Str) (p : Char → Bool) (S : List Nat) : List Nat :=
  S.flatMap (fun i => plusTargets i (((s.drop i).takeWhile p).length))

/-- The right single quotation mark accepted by `['’]`. -/
def rsq : Char := Char.ofNat 0x2019

/-- Optional `['’]`. -/
def optApos (l : Str) (S : List Nat) : List Nat :=
  optP (clsP l (fun c => c == apos || c == rsq)) S

/-- `WHATABOUTISM_PATTERNS`: `\b(?:but\s+)?what\s+about\b`,
`\bhow\s+about\s+when\b`, `\byet\s+(?:what\s+about|how\s+about)\b`. -/
def whataboutism (l : Str) : Bool :=
  let p1 :=
    let S := optP (fun S => wsPlusP l (litP l "but".data S)) (bndP l (allPos l))
    bndP l (litP l "about".data (wsPlusP l (litP l "what".data S)))
  let p2 :=
    let S := wsPlusP l (litP l "about".data (wsPlusP l (litP l "how".data
      (bndP l (allPos l)))))
    bndP l (litP l "when".data S)
  let p3 :=
    let S := wsPlusP l (litP l "yet".data (bndP l (allPos l)))
    let A := litP l "about".data (wsPlusP l (litP l "what".data S))
    let B := litP l "about".data (wsPlusP l (litP l "how".data S))
    bndP l (altP A B)
  someMatch p1 || someMatch p2 || someMatch p3

/-- `SHIFTING_GOALPOST_PATTERNS[0]`:
`\bthis\s+is\s+not\s+(?:\w+\s+)?(?:,\s*)?(?:it['’]?s\s+)?(?:a\s+)?\w+`. -/
def shiftingGoalpost1 (l : Str) : Bool :=
  let S1 := wsPlusP l (litP l "not".data (wsPlusP l (litP l "is".data
    (wsPlusP l (litP l "this".data (bndP l (allPos l)))))))
  let S2 := optP (fun S => wsPlusP l (wordPlusP l S)) S1
  let S3 := optP (fun S => wsStarP l (clsP l (fun c => c == ',') S)) S2
  let S4 := optP (fun S => wsPlusP l (litP l "s".data (optApos l
    (litP l "it".data S)))) S3
  let S5 := optP (fun S => wsPlusP l (litP l "a".data S)) S4
  someMatch (wordPlusP l S5)

/-- `SHIFTING_GOALPOST_PATTERNS[1]`:
`\bthat['’]?s\s+not\s+\w+[,.]\s*(?:it['’]?s|that['’]?s)\s+`. -/
def shiftingGoalpost2 (l : Str) : Bool :=
  let S1 := wsPlusP l (litP l "s".data (optApos l (litP l "that".data
    (bndP l (allPos l)))))
  let S2 := clsP l (fun c => c == ',' || c == '.')
    (wordPlusP l (wsPlusP l (litP l "not".data S1)))
  let S3 := wsStarP l S2
  let A := litP l "s".data (optApos l (litP l "it".data S3))
  let B := litP l "s".data (optApos l (litP l "that".data S3))
  someMatch (wsPlusP l (altP A B))

/-- `SIDE_NOTE_PATTERNS`: `^\s*meanwhile[,.]\s+` (MULTILINE),
`\bmeanwhile[,.]\s+\w+`, `\bin\s+other\s+news[,.]\s+`. -/
def sideNote (l : Str) : Bool :=
  let bol := (allPos l).filter (fun i =>
    i = 0 || (l.get? (i - 1)).any (· = Char.ofNat 10))
  let p1 := wsPlusP l (clsP l (fun c => c == ',' || c == '.')
    (litP l "meanwhile".data (wsStarP l bol)))
  let p2 := wordPlusP l (wsPlusP l (clsP l (fun c => c == ',' || c == '.')
    (litP l "meanwhile".data (bndP l (allPos l)))))
  let p3 := wsPlusP l (clsP l (fun c => c == ',' || c == '.')
    (litP l "news".data (wsPlusP l (litP l "other".data
      (wsPlusP l (litP l "in".data (bndP l (allPos l))))))))
  someMatch p1 || someMatch p2 || someMatch p3

/-- `US_VS_THEM_PRONOUN_PATTERN`:
`\b(?:they|them|their)\s+(?:want|are|will|have|had)\s+`. -/
def usVsThemPronoun (l : Str) : Bool :=
  let S0 := bndP l (allPos l)
  let S1 := altP (litP l "they".data S0)
    (altP (litP l "them".data S0) (litP l "their".data S0))
  let S2 := wsPlusP l S1
  let S3 := altP (litP l "want".data S2) (altP (litP l "are".data S2)
    (altP (litP l "will".data S2) (altP (litP l "have".data S2)
      (litP l "had".data S2))))
  someMatch (wsPlusP l S3)

/-- `US_VS_THEM_HOSTILE` (a `frozenset`, substring checks). -/
def US_VS_THEM_HOSTILE : List Str :=
  ["poisoning".data, "enemy".data, "enemies".data, "invaders".data, "infest".data]

/-- `GATEKEEPING_PATTERNS`: `\b(?:the\s+)?only\s+real\s+\w+`,
`\btrue\s+(?:believers?|patriots?|americans?)\b`, `\bgenuine\s+\w+\b`. -/
def gatekeeping (l : Str) : Bool :=
  let p1 :=
    let S := optP (fun S => wsPlusP l (litP l "the".data S)) (bndP l (allPos l))
    wordPlusP l (wsPlusP l (litP l "real".data (wsPlusP l (litP l "only".data S))))
  let p2 :=
    let S := wsPlusP l (litP l "true".data (bndP l (allPos l)))
    let alts := ["believers".data, "believer".data, "patriots".data,
      "patriot".data, "americans".data, "american".data]
    bndP l (alts.flatMap (fun w => litP l w S))
  let p3 := bndP l (wordPlusP l (wsPlusP l (litP l "genuine".data
    (bndP l (allPos l)))))
  someMatch p1 || someMatch p2 || someMatch p3

/-- `SPECULATION_PATTERNS`: `\brumors?\b`, `\ballegedly\b`, `\breportedly\b`,
`\bit\s+(?:has\s+)?been\s+(?:widely\s+)?(?:reported|rumored)\b`. -/
def speculation (l : Str) : Bool :=
  containsBounded l "rumors".data || containsBounded l "rumor".data ||
  containsBounded l "allegedly".data || containsBounded l "reportedly".data ||
  (let S1 := wsPlusP l (litP l "it".data (bndP l (allPos l)))
   let S2 := optP (fun S => wsPlusP l (litP l "has".data S)) S1
   let S3 := wsPlusP l (litP l "been".data S2)
   let S4 := optP (fun S => wsPlusP l (litP l "widely".data S)) S3
   someMatch (bndP l (altP (litP l "reported".data S4) (litP l "rumored".data S4))))

/-- `VAGUENESS_AGENDA_PATTERNS`: `\bexperts?\s+(?:say|agree|believe|warn)`,
`\bstudies?\s+(?:show|suggest|indicate)`,
`\bmany\s+(?:people|critics|observers)\s+`. -/
def vagueness (l : Str) : Bool :=
  let p1 :=
    let S0 := bndP l (allPos l)
    let S := wsPlusP l (altP (litP l "experts".data S0) (litP l "expert".data S0))
    altP (litP l "say".data S) (altP (litP l "agree".data S)
      (altP (litP l "believe".data S) (litP l "warn".data S)))
  let p2 :=
    let S0 := bndP l (allPos l)
    let S := wsPlusP l (altP (litP l "studies".data S0) (litP l "studie".data S0))
    altP (litP l "show".data S) (altP (litP l "suggest".data S)
      (litP l "indicate".data S))
  let p3 :=
    let S := wsPlusP l (litP l "many".data (bndP l (allPos l)))
    wsPlusP l (altP (litP l "people".data S) (altP (litP l "critics".data S)
      (litP l "observers".data S)))
  someMatch p1 || someMatch p2 || someMatch p3

/-- `MUD_HONEY_PATTERNS`: `\b(?:hypocrite|liar|crook|fraud)\b`,
`\b(?:bedraggled|terrifying)\s+\w+\b`. -/
def mudHoney (l : Str) : Bool :=
  (["hypocrite", "liar", "crook", "fraud"].any
    (fun w => containsBounded l w.data)) ||
  (let S0 := bndP l (allPos l)
   let S := wsPlusP l (altP (litP l "bedraggled".data S0)
     (litP l "terrifying".data S0))
   someMatch (bndP l (wordPlusP l S)))

/-- `DEFAULT_FEAR_TERMS` of `hidden_agenda.py` (a `frozenset`; embedded in
literal order). -/
def DEFAULT_FEAR_TERMS : List Str :=
  ["collapse".data, "destroy".data, "threat".data, "danger".data,
   "catastrophe".data, "crisis".data, "terror".data, "disaster".data,
   "attack".data]

/-- The `__init__` lexicon resolution: a loaded list, or the defaults when the
lexicon file is missing or empty (`... or list(DEFAULT_FEAR_TERMS)`). -/
def resolveFearTerms (loaded : List Str) : List Str :=
  if loaded = [] then DEFAULT_FEAR_TERMS else loaded

/-- `HiddenAgendaAnalyzer.analyze` of `hidden_agenda.py`.  Every
`AgendaFlag(...)` call in the source omits the dataclass's required
`sentence` field, so the first matching family raises `TypeError` before any
flag is produced; with no match the flag list stays empty and is returned.
The analyzer is parameterized by the resolved `_fear_terms` list. -/
def analyze (fear_terms : List Str) (text : Str) : Except String (List AgendaFlag) :=
  if text.isEmpty || (pyStrip text).isEmpty then .ok []
  else
    let l := lowerStr text
    let fear_lower := fear_terms.map lowerStr
    if whataboutism l || shiftingGoalpost1 l || shiftingGoalpost2 l ||
       sideNote l || usVsThemPronoun l ||
       US_VS_THEM_HOSTILE.any (fun w => containsSub l w) || gatekeeping l ||
       speculation l || vagueness l || mudHoney l ||
       fear_lower.any (fun t => containsSub l t) then
      .error "TypeError: AgendaFlag.__init__() missing 1 required positional argument: sentence"
    else .ok []

end HiddenAgenda

/-! ## Trigger-profile analyzer (`analyzers/trigger_profile.py`) -/

/-- `TriggerProfile` of `models/report.py`. -/
structure TriggerProfile where
  fear_level : Str
  authority_level : Str
  identity_level : Str
deriving DecidableEq, Repr

namespace TriggerProfiling

/-- `_count_matches` of `trigger_profile.py` (the identical helper of
`v3/temporal_drift.py` is shared): the number of terms whose lowered form is
a substring of the lowered text — each term counts at most once, whatever its
number of occurrences. -/
def count_matches (text : Str) (terms : List Str) : Nat :=
  let lower_text := lowerStr text
  (terms.filter (fun t => containsSub lower_text (lowerStr t))).length

/-- `_count_to_level` of `trigger_profile.py`. -/
def count_to_level (count : Nat) : Str :=
  if count = 0 then "Low".data
  else if count ≤ 2 then "Moderate".data
  else "High".data

/-- The three loaded lexicons of `TriggerProfileAnalyzer.__init__` (lexicon
file loading is an external collaborator; a missing file loads as `[]`). -/
structure TriggerLexicons where
  fear : List Str
  authority : List Str
  identity : List Str

/-- `TriggerProfileAnalyzer.analyze` of `trigger_profile.py`. -/
def analyze (lex : TriggerLexicons) (text : Str) : TriggerProfile :=
  let fear_count := if lex.fear ≠ [] then count_matches text lex.fear else 0
  let authority_count :=
    if lex.authority ≠ [] then count_matches text lex.authority else 0
  let identity_count :=
    if lex.identity ≠ [] then count_matches text lex.identity else 0
  ⟨count_to_level fear_count, count_to_level authority_count,
   count_to_level identity_count⟩

/-- Modelled from the spec (§4.3, claim C6 wording): classify by the total
number of case-insensitive substring *occurrences* of the category's lexicon
terms — counting every occurrence of every term, unlike `_count_matches` of
the source, which counts each term at most once. -/
def occurrenceCount (text : Str) (terms : List Str) : Nat :=
  let lower_text := lowerStr text
  (terms.map (fun t =>
    ((allPos lower_text).filter (fun i =>
      occursAt lower_text (lowerStr t) i)).length)).sum

end TriggerProfiling

/-! ## Tone analyzer (`analyzers/tone.py`) -/

namespace Tone

def URGENT : List Str :=
  ["must".data, "need".data, "now".data, "urgent".data, "immediately".data,
   "critical".data, "crisis".data]

def DEFENSIVE : List Str :=
  ["protect".data, "defend".data, "against".data, "threat".data,
   "attack".data, "stand for".data]

def FEAR_ORIENTED : List Str :=
  ["fear".data, "afraid".data, "danger".data, "collapse".data,
   "destroy".data, "threat".data, "crisis".data]

/-- `ToneAnalyzer.analyze` of `tone.py`. -/
def analyze (text : Str) : List Str :=
  let lower := lowerStr text
  (if URGENT.any (fun w => containsSub lower w) then ["Urgent".data] else []) ++
  (if DEFENSIVE.any (fun w => containsSub lower w) then ["Defensive".data] else []) ++
  (if FEAR_ORIENTED.any (fun w => containsSub lower w) then ["Fear-oriented".data] else [])

end Tone

/-! ## Modal-verb and pronoun analyzer (`analyzers/modal_pronoun.py`) -/

namespace ModalPronoun

def MODAL_VERBS : List Str :=
  ["must".data, "should".data, "could".data, "would".data, "might".data,
   "can".data, "will".data, "shall".data]

def PRONOUNS : List Str :=
  ["we".data, "they".data, "us".data, "them".data, "i".data, "you".data]

/-- `ModalPronounResult` of `modal_pronoun.py` (the pronoun dict is an
insertion-ordered association list). -/
structure ModalPronounResult where
  modal_verbs : List Str
  pronoun_framing : List (Str × Nat)
  pronoun_insight : Option Str
deriving DecidableEq, Repr

/-- `re.sub(r"\W+", "", w)`: remove every non-word character. -/
def cleanWord (w : Str) : Str := w.filter isWordChar

/-- The first-seen deduplicating modal-verb loop. -/
def collectModals : List Str → List Str → List Str
  | [], _ => []
  | w :: rest, seen =>
    let c := cleanWord w
    if MODAL_VERBS.contains c && !seen.contains c then
      c :: collectModals rest (c :: seen)
    else collectModals rest seen

/-- Count of words cleaning to pronoun `p`. -/
def pronounCount (ws : List Str) (p : Str) : Nat :=
  (ws.filter (fun w => cleanWord w = p)).length

/-- `pronoun_framing.get(p, 0)`. -/
def getPronoun (framing : List (Str × Nat)) (p : Str) : Nat :=
  match framing.find? (fun x => x.1 = p) with
  | some x => x.2
  | none => 0

/-- `ModalPronounAnalyzer.analyze` of `modal_pronoun.py`. -/
def analyze (text : Str) : ModalPronounResult :=
  let words := pySplit (lowerStr text)
  let modal_verbs := collectModals words []
  let pronoun_framing :=
    (PRONOUNS.map (fun p => (p, pronounCount words p))).filter (fun x => 0 < x.2)
  let insight : Option Str :=
    if 1 ≤ getPronoun pronoun_framing "we".data + getPronoun pronoun_framing "us".data ∧
       1 ≤ getPronoun pronoun_framing "they".data + getPronoun pronoun_framing "them".data then
      some "Possible in-group / out-group framing".data
    else none
  ⟨modal_verbs, pronoun_framing, insight⟩

end ModalPronoun

/-! ## Pipeline (`main.py`) -/

/-- `Report` of `models/report.py`. -/
structure Report where
  word_count : Nat
  sentence_count : Nat
  trigger_profile : TriggerProfile
  tone : List Str
  modal_verbs_detected : List Str
  pronoun_framing : List (Str × Nat)
  pronoun_insight : Option Str
  logical_fallacy_flags : List FallacyFlag
  hidden_assumptions : List AssumptionFlag
  hidden_agenda_flags : List AgendaFlag
  context_note : Option Str
  satire_probability : ℚ
  content_type_hint : Str

/-- The transcript-marker test `re.search(r"\[[\w\s]+\]", text)` of
`run_pipeline`. -/
def bracketMarker (text : Str) : Bool :=
  someMatch (clsP text (fun c => c == ']')
    (HiddenAgenda.runPlusP text (fun c => isWordChar c || isWs c)
      (clsP text (fun c => c == '[') (allPos text))))

/-- `run_pipeline` of `main.py`.  Transcript preprocessing and comedic-context
detection live in the out-of-scope `utils/youtube.py` collaborator and are
passed in as functions (`preprocess_transcript`, `detect_comedic_context`);
lexicon loading is likewise passed in as the already-loaded term lists.  The
result is `Except` because `HiddenAgendaAnalyzer.analyze` raises `TypeError`
whenever an agenda technique matches. -/
def run_pipeline (pre : Str → Str) (detect : Str → Option Str)
    (lex : TriggerProfiling.TriggerLexicons) (agendaFearTerms : List Str)
    (text0 : Str) (context_note0 : Option Str) : Except String Report :=
  let step :=
    if bracketMarker text0 ∧ context_note0 = none then (pre text0, detect text0)
    else (text0, context_note0)
  let text := step.1
  let context_note := step.2
  let satire := Satire.analyze text
  let stats := (TextUtils.count_words text, TextUtils.count_sentences text)
  let trigger := TriggerProfiling.analyze lex text
  let tone := Tone.analyze text
  let mp := ModalPronoun.analyze text
  let fallacies := LogicalFallacy.analyze text
  let assumptions := HiddenAssumptions.analyze text
  match HiddenAgenda.analyze agendaFearTerms text with
  | .error e => .error e
  | .ok agenda_flags =>
    .ok ⟨stats.1, stats.2, trigger, tone, mp.modal_verbs, mp.pronoun_framing,
      mp.pronoun_insight, fallacies, assumptions, agenda_flags, context_note,
      satire.1, satire.2.2⟩

/-! ## Cross-speaker contradiction analyzer (`v3/contradiction.py`) -/

/-- `ContradictionPair` of `v3/models.py`. -/
structure ContradictionPair where
  speaker_a : Str
  text_a : Str
  speaker_b : Str
  text_b : Str
  probability : ℚ
  contradiction_type : Str
  explanation : Str
deriving DecidableEq, Repr

/-- `ContradictionReport` of `v3/models.py` (the display-only `summary`
string is out-of-scope report formatting and is not modelled). -/
structure ContradictionReport where
  pairs : List ContradictionPair
  reframing_detected : Bool
  evasion_likelihood : ℚ
  question_avoidance_detected : Bool
deriving DecidableEq, Repr

namespace Contradiction

def NEGATIONS : List Str :=
  ["not".data, "never".data, "no".data, "nobody".data, "nothing".data,
   "neither".data, "nor".data, "without".data]

def NEGATION_VERBS : List Str :=
  ["deny".data, "reject".data, "refuse".data, "dispute".data,
   "contradict".data]

def HEDGING : List Str :=
  ["perhaps".data, "maybe".data, "might".data, "could".data, "possibly".data,
   "sometimes".data, "allegedly".data]

def QUESTION_WORDS : List Str :=
  ["what".data, "when".data, "where".data, "why".data, "how".data,
   "who".data, "which".data]

/-- `_has_negation` of `contradiction.py`. -/
def has_negation (text : Str) : Bool :=
  let lower := lowerStr text
  let words := (wordRuns lower).dedup
  NEGATIONS.any (fun w => words.contains w) ||
  NEGATION_VERBS.any (fun v => containsSub lower v)

/-- The word set `set(re.findall(r"\b\w{3,}\b", text.lower()))`: maximal word
runs of length at least 3, deduplicated. -/
def words3 (text : Str) : List Str :=
  ((wordRuns (lowerStr text)).filter (fun w => decide (3 ≤ w.length))).dedup

/-- `_semantic_overlap` of `contradiction.py`. -/
def semantic_overlap (text_a text_b : Str) : ℚ :=
  let wa := words3 text_a
  let wb := words3 text_b
  if wa.isEmpty || wb.isEmpty then 0
  else
    let overlap : ℚ :=
      ((wa.filter (fun w => wb.contains w)).length : ℚ) /
        (min wa.length wb.length : ℚ)
    min overlap 1

/-- `_hedging_density` of `contradiction.py`. -/
def hedging_density (text : Str) : ℚ :=
  let words := pySplit (lowerStr text)
  if words.isEmpty then 0
  else
    ((words.filter (fun w => HEDGING.contains (w.filter isWordChar))).length : ℚ) /
      (words.length : ℚ)

/-- `_is_question` of `contradiction.py`. -/
def is_question (text : Str) : Bool :=
  let stripped := pyStrip text
  if stripped.getLast? ≠ some '?' then false
  else
    let first :=
      match pySplit stripped with
      | [] => []
      | _ :: _ => (pySplit (lowerStr stripped)).headD []
    QUESTION_WORDS.contains first ||
    "Do ".data.isPrefixOf stripped || "Did ".data.isPrefixOf stripped

/-- The 200-character display preview `t[:200] + ("..." if len(t) > 200 else "")`. -/
def preview (t : Str) : Str :=
  t.take 200 ++ (if 200 < t.length then "...".data else [])

def explanationStr : Str :=
  "Negation in one utterance with semantic overlap in the other.".data

/-- The body of the contradiction branch for one adjacent pair. -/
def pairEmit (mo : ℚ) (a b : Str × Str) : Option ContradictionPair :=
  let overlap := semantic_overlap a.2 b.2
  if has_negation a.2 ≠ has_negation b.2 ∧ mo ≤ overlap ∧
     20 < a.2.length ∧ 20 < b.2.length then
    some ⟨a.1, preview a.2, b.1, preview b.2,
      min (0.5 + overlap * 0.5) 0.9, "direct".data, explanationStr⟩
  else none

/-- The sliding-window loop `for i in range(len(turns) - 1)` collecting
contradiction pairs in order. -/
def pairsLoop (mo : ℚ) : List (Str × Str) → List ContradictionPair
  | a :: b :: rest =>
    (match pairEmit mo a b with
     | some p => [p]
     | none => []) ++ pairsLoop mo (b :: rest)
  | _ => []

/-- The question/evasion counting of the same loop (the evasion test runs
only inside the `_is_question(text_a)` branch). -/
def questionEvasionLoop : List (Str × Str) → Nat × Nat
  | a :: b :: rest =>
    let tailCounts := questionEvasionLoop (b :: rest)
    if is_question a.2 then
      if hedging_density b.2 > 0.1 ∧ semantic_overlap a.2 b.2 < 0.3 then
        (tailCounts.1 + 1, tailCounts.2 + 1)
      else (tailCounts.1 + 1, tailCounts.2)
    else tailCounts
  | _ => (0, 0)

/-- `ContradictionAnalyzer.analyze` of `contradiction.py` (`min_overlap`
defaults to 0.15 at the call site). -/
def analyze (turns : List (Str × Str)) (min_overlap : ℚ) : ContradictionReport :=
  let pairs := pairsLoop min_overlap turns
  let qe := questionEvasionLoop turns
  let question_count := qe.1
  let evasion_count := qe.2
  { pairs := pairs
    reframing_detected := !pairs.isEmpty
    evasion_likelihood := (evasion_count : ℚ) / (question_count + 1 : ℚ)
    question_avoidance_detected := 1 ≤ evasion_count ∧ 1 ≤ question_count }

end Contradiction

/-! ## Temporal-drift analyzer (`v3/temporal_drift.py`) -/

/-- `DocumentProfile` of `v3/models.py`. -/
structure DocumentProfile where
  doc_id : Str
  date : Option Str
  fear : ℚ
  authority : ℚ
  identity : ℚ
  liberty : ℚ
  word_count : Nat
deriving DecidableEq, Repr

/-- `DriftVector` of `v3/models.py`. -/
structure DriftVector where
  dimension : Str
  from_value : ℚ
  to_value : ℚ
  delta : ℚ
  pct_change : ℚ
deriving DecidableEq, Repr

/-- `TemporalDriftReport` of `v3/models.py` (`timeline_data` repeats the
profile dimensions for display and `summary`/`viz_data` are display-only;
they are not modelled). -/
structure TemporalDriftReport where
  profiles : List DocumentProfile
  drift_vectors : List DriftVector
deriving DecidableEq, Repr

namespace TemporalDrift

/-- The four loaded lexicons of `TemporalDriftAnalyzer.__init__`. -/
structure DriftLexicons where
  fear : List Str
  authority : List Str
  identity : List Str
  liberty : List Str

/-- The `__init__` fallbacks: default fear and liberty lists when the loaded
lexicons are empty. -/
def resolveLex (loaded : DriftLexicons) : DriftLexicons :=
  { loaded with
    fear := if loaded.fear = [] then
        ["collapse".data, "destroy".data, "threat".data, "danger".data,
         "crisis".data]
      else loaded.fear
    liberty := if loaded.liberty = [] then
        ["freedom".data, "liberty".data, "free".data, "rights".data,
         "oppression".data]
      else loaded.liberty }

/-- `_score_to_normalized` of `temporal_drift.py`. -/
def score_to_normalized (count word_count : Nat) : ℚ :=
  if word_count = 0 then 0
  else min ((count : ℚ) / ((word_count : ℚ) / 100)) 1

/-- `TemporalDriftAnalyzer._profile_document` (`_count_matches` is the same
helper as in `trigger_profile.py`). -/
def profile_document (lex : DriftLexicons) (doc_id : Str) (date : Option Str)
    (text : Str) : DocumentProfile :=
  let wc := (pySplit text).length
  ⟨doc_id, date,
   score_to_normalized (TriggerProfiling.count_matches text lex.fear) wc,
   score_to_normalized (TriggerProfiling.count_matches text lex.authority) wc,
   score_to_normalized (TriggerProfiling.count_matches text lex.identity) wc,
   score_to_normalized (TriggerProfiling.count_matches text lex.liberty) wc,
   wc⟩

/-- One drift vector:
`pct = (delta / (v1 + 0.001)) * 100 if v1 else 0`. -/
def mkDrift (dim : Str) (v1 v2 : ℚ) : DriftVector :=
  ⟨dim, v1, v2, v2 - v1,
   if v1 ≠ 0 then (v2 - v1) / (v1 + 0.001) * 100 else 0⟩

/-- The four per-dimension vectors of one consecutive profile pair, in the
source's `("fear", "authority", "identity", "liberty")` order. -/
def pairDrifts (p1 p2 : DocumentProfile) : List DriftVector :=
  [mkDrift "fear".data p1.fear p2.fear,
   mkDrift "authority".data p1.authority p2.authority,
   mkDrift "identity".data p1.identity p2.identity,
   mkDrift "liberty".data p1.liberty p2.liberty]

/-- The `for i in range(len(profiles) - 1)` loop. -/
def driftLoop : List DocumentProfile → List DriftVector
  | p1 :: p2 :: rest => pairDrifts p1 p2 ++ driftLoop (p2 :: rest)
  | _ => []

/-- `TemporalDriftAnalyzer.analyze` of `temporal_drift.py`, parameterized by
the resolved lexicons. -/
def analyze (lex : DriftLexicons) (documents : List (Str × Option Str × Str)) :
    TemporalDriftReport :=
  let profiles := documents.filterMap (fun d =>
    if !d.2.2.isEmpty && !(pyStrip d.2.2).isEmpty then
      some (profile_document lex d.1 d.2.1 d.2.2)
    else none)
  ⟨profiles, driftLoop profiles⟩

end TemporalDrift

/-! ## Debate-heatmap analyzer (`v3/debate_heatmap.py`) -/

/-- `TurnMetrics` of `v3/models.py`. -/
structure TurnMetrics where
  speaker_id : Str
  turn_idx : Nat
  text : Str
  emotional_intensity : ℚ
  dominance_score : ℚ
  certainty_score : ℚ
  word_count : Nat
deriving DecidableEq, Repr

/-- `DebateHeatmapReport` of `v3/models.py` (display-only `summary` and
`viz_data` are not modelled; `influence_scores` is an insertion-ordered
association list). -/
structure DebateHeatmapReport where
  turns : List TurnMetrics
  speakers : List Str
  heatmap_grid : List (List ℚ)
  escalation_by_turn : List ℚ
  influence_scores : List (Str × ℚ)
deriving DecidableEq, Repr

namespace DebateHeatmap

def INTENSITY_TERMS : List Str :=
  ["must".data, "need".data, "urgent".data, "critical".data, "crisis".data,
   "protect".data, "defend".data, "threat".data, "attack".data, "fear".data,
   "danger".data, "never".data, "always".data, "certain".data,
   "absolute".data, "everyone".data, "destroy".data, "collapse".data]

def DOMINANCE_TERMS : List Str :=
  ["must".data, "shall".data, "will".data, "cannot".data, "never".data,
   "always".data, "everyone".data]

def CERTAINTY_MODALS : List Str :=
  ["must".data, "will".data, "shall".data, "cannot".data]

/-- `_intensity_score` of `debate_heatmap.py` (`re.findall(r"\b\w+\b", ...)`
keeps multiplicity). -/
def intensity_score (text : Str) : ℚ :=
  let words := wordRuns (lowerStr text)
  if words.isEmpty then 0
  else
    min (((words.filter (fun w => INTENSITY_TERMS.contains w)).length : ℚ) /
      (words.length : ℚ) * 10) 1

/-- `_dominance_score` of `debate_heatmap.py`. -/
def dominance_score (text : Str) : ℚ :=
  let words := pySplit (lowerStr text)
  if words.isEmpty then 0
  else
    min (((words.filter (fun w =>
      DOMINANCE_TERMS.contains (w.filter isWordChar))).length : ℚ) /
      (words.length : ℚ) * 5) 1

/-- `_certainty_score` of `debate_heatmap.py`. -/
def certainty_score (text : Str) : ℚ :=
  let words := pySplit (lowerStr text)
  if words.isEmpty then 0
  else
    min (((words.filter (fun w =>
      CERTAINTY_MODALS.contains (w.filter isWordChar))).length : ℚ) /
      (words.length : ℚ) * 8) 1

/-- `list(dict.fromkeys(...))`: deduplicate keeping the first occurrence. -/
def uniqueFirst : List Str → List Str
  | [] => []
  | x :: rest =>
    x :: (uniqueFirst rest).filter (fun y => y ≠ x)

/-- One `TurnMetrics` entry of the enumeration loop. -/
def mkTurnMetrics (idx : Nat) (turn : Str × Str) : TurnMetrics :=
  ⟨turn.1, idx, turn.2.take 100 ++ (if 100 < turn.2.length then "...".data else []),
   intensity_score turn.2, dominance_score turn.2, certainty_score turn.2,
   (pySplit turn.2).length⟩

/-- The `enumerate(turns)` loop building the per-turn metrics. -/
def turnMetricsAux : Nat → List (Str × Str) → List TurnMetrics
  | _, [] => []
  | idx, t :: rest => mkTurnMetrics idx t :: turnMetricsAux (idx + 1) rest

/-- The enumerated per-turn metrics. -/
def turnMetricsList (turns : List (Str × Str)) : List TurnMetrics :=
  turnMetricsAux 0 turns

/-- One max-update of a heatmap cell for turn index `t_idx`
(`heatmap[s_idx][bin_idx] = max(heatmap[s_idx][bin_idx], intensity)`,
guarded by the turn belonging to speaker `s`). -/
def cellStep (tm : List TurnMetrics) (s : Str) (acc : ℚ) (t_idx : Nat) : ℚ :=
  match tm.get? t_idx with
  | some t =>
    if t.speaker_id = s then
      max acc (t.emotional_intensity + t.dominance_score * 0.5)
    else acc
  | none => acc

/-- The turn indices of time bin `b`:
`range(start, end)` with `start = b*size` and `end = min(start+size, n)`. -/
def binIndices (n size b : Nat) : List Nat :=
  (List.range (min (b * size + size) n - b * size)).map (b * size + ·)

/-- One heatmap cell: the maximum of
`emotional_intensity + dominance_score * 0.5` over the turns of speaker `s`
whose index lies in time bin `b`, starting from the grid's initial `0.0` —
the net effect of the nested max-update loop of the source. -/
def cellValue (tm : List TurnMetrics) (n size : Nat) (s : Str) (b : Nat) : ℚ :=
  (binIndices n size b).foldl (cellStep tm s) 0

/-- Per-speaker influence: the mean of `intensity + dominance` over the
speaker's turns. -/
def influenceOf (tm : List TurnMetrics) (s : Str) : ℚ :=
  let s_turns := tm.filter (fun t => t.speaker_id = s)
  if s_turns.isEmpty then 0
  else
    (s_turns.map (fun t => t.emotional_intensity + t.dominance_score)).sum /
      (s_turns.length : ℚ)

/-- `DebateHeatmapAnalyzer.analyze` of `debate_heatmap.py`, with
`time_bins` the constructor parameter (default 10). -/
def analyze (time_bins : Nat) (turns : List (Str × Str)) : DebateHeatmapReport :=
  let speakers := uniqueFirst (turns.map (·.1))
  let turn_metrics := turnMetricsList turns
  let bin_size := max 1 (turns.length / time_bins)
  let heatmap := speakers.map (fun s =>
    (List.range time_bins).map (cellValue turn_metrics turns.length bin_size s))
  let escalation := turn_metrics.map (fun t =>
    t.emotional_intensity + t.dominance_score)
  let influence := speakers.map (fun s => (s, influenceOf turn_metrics s))
  ⟨turn_metrics, speakers, heatmap, escalation, influence⟩

end DebateHeatmap

/-! ## Concrete inputs used by the worked examples -/

/-- The satire-gate example sentence of the spec (§8). -/
def catsText : Str :=
  ("If we allow one small policy change, the universe will collapse and " ++
   "society will turn into chaos ruled by cats.").data

/-- The genuine-dichotomy example of the spec (§8). -/
def dichotomyText : Str :=
  "Either the file exists or it doesn".data ++ apos :: "t.".data

/-- The false-dilemma example of the spec (§8). -/
def billText : Str :=
  "Either you support this bill or you hate this country.".data

/-- A hedged sentence containing the fear term `destroy`. -/
def hedgeText : Str := "Perhaps they could destroy us.".data

/-- A sentence with exactly one epistemic-shortcut trigger. -/
def obviousText : Str := "Obviously this is true.".data

/-- A sentence matching the Us-vs-Them agenda pattern. -/
def theyWantText : Str := "They want to destroy everything.".data

/-- The description/base-confidence table of the assumption-rule families
(the enthymeme family has two bases: 0.70 for therefore/thus/hence and 0.55
for so/consequently). -/
def assumptionFamilyBases : List (Str × ℚ) :=
  [(HiddenAssumptions.descFactive, 0.75),
   (HiddenAssumptions.descImplicative, 0.65),
   (HiddenAssumptions.descChangeOfState, 0.68),
   (HiddenAssumptions.descRepetition, 0.70),
   (HiddenAssumptions.descEpistemic, 0.80),
   (HiddenAssumptions.descUniversal, 0.55),
   (HiddenAssumptions.descVague, 0.65),
   (HiddenAssumptions.descConclusion, 0.70),
   (HiddenAssumptions.descConclusion, 0.55),
   (HiddenAssumptions.descLoaded, 0.85),
   (HiddenAssumptions.descSuggestive, 0.75)]

/-- Adjacent speaker turns with one negation-differing, overlapping pair. -/
def contraTurns : List (Str × Str) :=
  [("A".data, "We should support the new policy because it works".data),
   ("B".data, "No, the policy does not work at all here".data)]

/-- Two documents whose first fear density is 0 and second is positive. -/
def driftDocs : List (Str × Option Str × Str) :=
  [("d1".data, none, "hello world".data),
   ("d2".data, none, "collapse now".data)]

/-- The drift lexicons as resolved with no lexicon files on disk. -/
def driftLex : TemporalDrift.DriftLexicons :=
  TemporalDrift.resolveLex ⟨[], [], [], []⟩

/-- Three turns for two heatmap bins: index 2 is a trailing turn
(`2 * max 1 (3 / 2) = 2 < 3`); the two lists differ only there. -/
def heatTurns1 : List (Str × Str) :=
  [("A".data, "calm words".data), ("B".data, "more calm words".data),
   ("A".data, "danger danger attack threat".data)]

/-- Same as `heatTurns1` with a different trailing-turn text. -/
def heatTurns2 : List (Str × Str) :=
  [("A".data, "calm words".data), ("B".data, "more calm words".data),
   ("A".data, "quiet".data)]

/-! ### Whitespace-only texts find no pattern matches -/

/-- The text consists of whitespace only. -/
abbrev allWs (s : Str) : Prop := ∀ c ∈ s, isWs c = true

/-- The pattern has at least one non-whitespace character. -/
def hasNonWs (pat : Str) : Bool := pat.any (fun c => !isWs c)

theorem mem_of_isPrefixOf : ∀ {p s : Str}, p.isPrefixOf s = true → ∀ c ∈ p, c ∈ s
  | [], _, _, c, hc => absurd hc (List.not_mem_nil c)
  | _ :: _, [], h, _, _ => by simp [List.isPrefixOf] at h
  | a :: p, b :: s, h, c, hc => by
    simp only [List.isPrefixOf, Bool.and_eq_true, beq_iff_eq] at h
    rcases List.mem_cons.mp hc with rfl | hc
    · simp [h.1]
    · exact List.mem_cons_of_mem _ (mem_of_isPrefixOf h.2 c hc)

theorem occursAt_eq_false (hs : allWs s) (hp : hasNonWs pat = true) :
    occursAt s pat i = false := by
  by_contra h
  rw [Bool.not_eq_false, occursAt] at h
  rcases List.any_eq_true.mp hp with ⟨c, hc, hcw⟩
  have hcs : c ∈ s := List.mem_of_mem_drop (mem_of_isPrefixOf h c hc)
  rw [hs c hcs] at hcw
  simp at hcw

theorem litP_eq_nil (hs : allWs s) (hp : hasNonWs pat = true) (S : List Nat) :
    litP s pat S = [] := by
  simp [litP, List.filter_eq_nil_iff, occursAt_eq_false hs hp]

theorem containsBounded_eq_false (hs : allWs s) (hp : hasNonWs pat = true) :
    containsBounded s pat = false := by
  simp [containsBounded, boundedAt, occursAt_eq_false hs hp]

theorem containsWordStart_eq_false (hs : allWs s) (hp : hasNonWs pat = true) :
    containsWordStart s pat = false := by
  simp [containsWordStart, occursAt_eq_false hs hp]

theorem containsSub_eq_false (hs : allWs s) (hp : hasNonWs pat = true) :
    containsSub s pat = false := by
  induction s with
  | nil =>
    rcases List.any_eq_true.mp hp with ⟨c, hc, hcw⟩
    cases pat with
    | nil => exact absurd hc (List.not_mem_nil c)
    | cons a t => simp [containsSub]
  | cons a t ih =>
    have hws : allWs t := fun c hc => hs c (List.mem_cons_of_mem a hc)
    rw [containsSub, ih hws, Bool.or_false]
    by_contra h
    rw [Bool.not_eq_false] at h
    rcases List.any_eq_true.mp hp with ⟨c, hc, hcw⟩
    have : c ∈ a :: t := mem_of_isPrefixOf h c hc
    rw [hs c this] at hcw
    simp at hcw

theorem litP_nil : litP s pat [] = [] := rfl

theorem bndP_nil : bndP s [] = [] := rfl

theorem wsPlusP_nil : wsPlusP s [] = [] := rfl

theorem wordPlusP_nil : wordPlusP s [] = [] := rfl

theorem dotStarP_nil : dotStarP s [] = [] := rfl

/-- Whitespace is unchanged by ASCII lowering, so a whitespace-only text stays
whitespace-only. -/
theorem allWs_lowerStr (hs : allWs s) : allWs (lowerStr s) := by
  intro c hc
  rcases List.mem_map.mp hc with ⟨b, hb, rfl⟩
  have hbw := hs b hb
  have : lowerChar b = b := by
    rw [lowerChar, if_neg]
    intro ⟨h1, h2⟩
    rw [isWs] at hbw
    rcases Bool.or_eq_true .. |>.mp hbw with h | h
    · rcases Bool.or_eq_true .. |>.mp h with h | h
      · rcases Bool.or_eq_true .. |>.mp h with h | h
        · rcases Bool.or_eq_true .. |>.mp h with h | h
          · rcases Bool.or_eq_true .. |>.mp h with h | h <;>
              (rw [decide_eq_true_iff] at h; subst h; revert h1; decide)
          · rw [decide_eq_true_iff] at h; subst h; revert h1; decide
        · rw [decide_eq_true_iff] at h; subst h; revert h1; decide
      · rw [decide_eq_true_iff] at h; subst h; revert h1; decide
    · rw [decide_eq_true_iff] at h; subst h; revert h1; decide
  rw [this]
  exact hbw

namespace Satire

theorem societyWillMatch_ws (hs : allWs l) : societyWillMatch l = false := by
  simp +decide [societyWillMatch, litP_eq_nil hs, wsPlusP_nil, wordPlusP_nil,
    litP_nil, altP, someMatch]

theorem meltIntoMatch_ws (hs : allWs l) : meltIntoMatch l = false := by
  simp +decide [meltIntoMatch, litP_eq_nil hs, wsPlusP_nil, litP_nil, altP,
    bndP_nil, someMatch]

theorem endOfUniverseMatch_ws (hs : allWs l) : endOfUniverseMatch l = false := by
  simp +decide [endOfUniverseMatch, litP_eq_nil hs, optP, litP_nil, altP,
    bndP_nil, someMatch]

theorem literallyMatch_ws (hs : allWs l) : literallyMatch l = false := by
  simp +decide [literallyMatch, litP_eq_nil hs, wsPlusP_nil, litP_nil, altP,
    bndP_nil, someMatch]

theorem absurdOutcomeMatch_ws (hs : allWs l) : absurdOutcomeMatch l = false := by
  simp +decide [absurdOutcomeMatch, containsBounded_eq_false hs,
    containsWordStart_eq_false hs, societyWillMatch_ws hs,
    meltIntoMatch_ws hs, endOfUniverseMatch_ws hs, literallyMatch_ws hs]

theorem incongruityNounMatch_ws (hs : allWs l) : incongruityNounMatch l = false := by
  simp +decide [incongruityNounMatch, litP_eq_nil hs, altP, wsPlusP_nil]

theorem disproportionateMatch_ws (hs : allWs l) : disproportionateMatch l = false := by
  simp +decide [disproportionateMatch, litP_eq_nil hs, altP, wsPlusP_nil,
    wordPlusP_nil, litP_nil, optP, repAtMost, bndP_nil, dotStarP_nil, someMatch]

theorem becauseIgnoresMatch_ws (hs : allWs l) : becauseIgnoresMatch l = false := by
  simp +decide [becauseIgnoresMatch, litP_eq_nil hs, wsPlusP_nil, litP_nil,
    bndP_nil, someMatch]

theorem perfectBecauseMatch_ws (hs : allWs l) : perfectBecauseMatch l = false := by
  simp +decide [perfectBecauseMatch, litP_eq_nil hs, wsPlusP_nil, litP_nil,
    altP, bndP_nil, someMatch]

theorem bestPlanMatch_ws (hs : allWs l) : bestPlanMatch l = false := by
  simp +decide [bestPlanMatch, litP_eq_nil hs, wsPlusP_nil, litP_nil,
    bndP_nil, someMatch]

/-- On whitespace-only text the absurdity sub-score is 0. -/
theorem absurdity_score_ws (hs : allWs text) : absurdity_score text = 0 := by
  have hl := allWs_lowerStr hs
  rw [absurdity_score]
  simp only [absurdOutcomeMatch_ws hl, incongruityNounMatch_ws hl,
    disproportionateMatch_ws hl, if_false]
  simp

/-- On whitespace-only text the incongruity sub-score is 0. -/
theorem incongruity_score_ws (hs : allWs text) : incongruity_score text = 0 := by
  have hl := allWs_lowerStr hs
  rw [incongruity_score]
  simp only [becauseIgnoresMatch_ws hl, perfectBecauseMatch_ws hl,
    bestPlanMatch_ws hl]
  simp

end Satire

/-- A stripped-to-empty text is whitespace-only. -/
theorem pyStrip_nil_of_allWs (h : allWs s) : pyStrip s = [] := by
  have h1 : s.dropWhile isWs = [] := List.dropWhile_eq_nil_iff.mpr h
  rw [pyStrip, h1]
  rfl

theorem allWs_of_pyStrip_nil (h : pyStrip s = []) : allWs s := by
  rw [pyStrip] at h
  have h1 : (s.dropWhile isWs).reverse.dropWhile isWs = [] := by
    simpa using congrArg List.reverse h
  have h2 : ∀ c ∈ (s.dropWhile isWs).reverse, isWs c = true :=
    List.dropWhile_eq_nil_iff.mp h1
  have h3 : ∀ c ∈ s.dropWhile isWs, isWs c = true := by
    intro c hc
    exact h2 c (List.mem_reverse.mpr hc)
  intro c hc
  have hsplit : s.takeWhile isWs ++ s.dropWhile isWs = s := List.takeWhile_append_dropWhile isWs s
  rw [← hsplit] at hc
  rcases List.mem_append.mp hc with h | h
  · exact List.mem_takeWhile_imp h
  · exact h3 c h

/-! ## Claim theorems -/

/-- C1: for every non-empty text, `SatireAnalyzer.analyze` returns a satire
probability equal to `min(H × (A + 1.5×I) / (0.5 + C), 0.95)` where H, A, I, C
are the hyperbole, absurdity, incongruity and context-plausibility sub-scores
of that text, and whenever both `A < 0.4` and `I < 0.4` the probability is
additionally capped at 0.25.  (A non-empty but whitespace-only text takes the
early-return path of the source and yields 0.0, which equals the formula's
value there because both A and I are 0.) -/
theorem satire_probability_formula (text : Str) (h : text ≠ []) :
    (Satire.analyze text).1 =
      (if Satire.absurdity_score text < 0.4 ∧ Satire.incongruity_score text < 0.4 then
        min (min (Satire.hyperbole_score text *
          (Satire.absurdity_score text + 1.5 * Satire.incongruity_score text) /
          (0.5 + Satire.context_plausibility_score text)) 0.95) 0.25
      else
        min (Satire.hyperbole_score text *
          (Satire.absurdity_score text + 1.5 * Satire.incongruity_score text) /
          (0.5 + Satire.context_plausibility_score text)) 0.95) := by
  by_cases hb : (text.isEmpty || (pyStrip text).isEmpty) = true
  · have hws : allWs text := by
      rcases Bool.or_eq_true .. |>.mp hb with h1 | h1
      · exact absurd (List.isEmpty_iff.mp h1) h
      · exact allWs_of_pyStrip_nil (List.isEmpty_iff.mp h1)
    have hA := Satire.absurdity_score_ws hws
    have hI := Satire.incongruity_score_ws hws
    rw [Satire.analyze, if_pos hb, hA, hI]
    rw [if_pos (by norm_num)]
    norm_num
  · rw [Satire.analyze, if_neg hb]

set_option maxRecDepth 200000 in
/-- C1 witness: the formula theorem applied to the concrete satire-gate
example sentence. -/
theorem satire_probability_formula_witness :
    catsText ≠ [] ∧
    (Satire.analyze catsText).1 =
      (if Satire.absurdity_score catsText < 0.4 ∧
          Satire.incongruity_score catsText < 0.4 then
        min (min (Satire.hyperbole_score catsText *
          (Satire.absurdity_score catsText + 1.5 * Satire.incongruity_score catsText) /
          (0.5 + Satire.context_plausibility_score catsText)) 0.95) 0.25
      else
        min (Satire.hyperbole_score catsText *
          (Satire.absurdity_score catsText + 1.5 * Satire.incongruity_score catsText) /
          (0.5 + Satire.context_plausibility_score catsText)) 0.95) :=
  ⟨by decide, satire_probability_formula catsText (by decide)⟩

set_option maxRecDepth 200000 in
/-- C3 counterexample: on the spec's satire-gate example sentence the
returned probability is 18/35 ≈ 0.514, which is not ≥ 0.6 as the claim
states. -/
theorem satire_cats_probability_below_claimed :
    ¬ (0.6 ≤ (Satire.analyze catsText).1) := by
  have h : (Satire.analyze catsText).1 = 18 / 35 := by with_unfolding_all rfl
  rw [h]
  norm_num

set_option maxRecDepth 200000 in
/-- C3 amended: on the spec's satire-gate example sentence the probability is
at least 0.5 (the bound the repository's own test asserts) and the
content-type label contains "Satire" or "Hyperbole". -/
theorem satire_cats_example :
    0.5 ≤ (Satire.analyze catsText).1 ∧
    (containsSub (Satire.analyze catsText).2.2 "Satire".data ||
     containsSub (Satire.analyze catsText).2.2 "Hyperbole".data) = true := by
  constructor
  · have h : (Satire.analyze catsText).1 = 18 / 35 := by with_unfolding_all rfl
    rw [h]
    norm_num
  · with_unfolding_all rfl

set_option maxRecDepth 100000 in
/-- C2 (code bug): `HiddenAgendaAnalyzer.analyze` constructs every
`AgendaFlag` without the dataclass's required `sentence` field, so instead of
returning flags annotated with the triggering sentence it raises `TypeError`
as soon as any agenda technique matches — here on a sentence matching the
Us-vs-Them pronoun pattern, with the analyzer's default fear lexicon. -/
theorem agenda_analyze_raises_on_match :
    HiddenAgenda.analyze (HiddenAgenda.resolveFearTerms []) theyWantText =
      .error "TypeError: AgendaFlag.__init__() missing 1 required positional argument: sentence" := by
  with_unfolding_all rfl

set_option maxRecDepth 100000 in
/-- C5: `LogicalFallacyAnalyzer.analyze` on "Either the file exists or it
doesn't." emits no False-Dilemma flag, while on "Either you support this bill
or you hate this country." it emits one. -/
theorem false_dilemma_vs_genuine_dichotomy :
    (LogicalFallacy.analyze dichotomyText).all
      (fun f => !(f.name == "False Dilemma".data)) = true ∧
    (LogicalFallacy.analyze billText).any
      (fun f => f.name == "False Dilemma".data) = true := by
  constructor
  · with_unfolding_all rfl
  · with_unfolding_all rfl

/-- C6 counterexample: with the one-term lexicon `["fear"]` and the text
"fear fear fear", the term occurs three times (the claim's occurrence count
classifies as "High"), but the analyzer counts each term at most once and
reports "Moderate". -/
theorem trigger_level_counts_terms_not_occurrences :
    (TriggerProfiling.analyze ⟨["fear".data], [], []⟩ "fear fear fear".data).fear_level =
      "Moderate".data ∧
    TriggerProfiling.occurrenceCount "fear fear fear".data ["fear".data] = 3 ∧
    TriggerProfiling.count_to_level 3 = "High".data ∧
    "Moderate".data ≠ "High".data := by
  refine ⟨by decide, by decide, by decide, by decide⟩

/-- C6 amended: for every lexicon and text, each trigger level is obtained by
counting the *number of that category's lexicon terms* that occur
case-insensitively as substrings of the full text (each term counted at most
once, whatever its number of occurrences) and classifying that count by
0 → "Low", 1–2 → "Moderate", ≥3 → "High". -/
theorem trigger_levels_from_term_counts
    (lex : TriggerProfiling.TriggerLexicons) (text : Str) :
    TriggerProfiling.analyze lex text =
      ⟨TriggerProfiling.count_to_level (TriggerProfiling.count_matches text lex.fear),
       TriggerProfiling.count_to_level (TriggerProfiling.count_matches text lex.authority),
       TriggerProfiling.count_to_level (TriggerProfiling.count_matches text lex.identity)⟩ := by
  have hz : ∀ t : Str, TriggerProfiling.count_matches t [] = 0 := fun _ => rfl
  rw [TriggerProfiling.analyze]
  rcases lex with ⟨f, a, i⟩
  by_cases hf : f ≠ [] <;> by_cases ha : a ≠ [] <;> by_cases hi : i ≠ [] <;>
    simp only [hf, ha, hi, if_pos, if_neg, not_not, if_true, if_false, ite_not] <;>
    simp_all

theorem contradiction_pairsLoop_eq (mo : ℚ) :
    ∀ turns : List (Str × Str), Contradiction.pairsLoop mo turns =
      (turns.zip turns.tail).filterMap (fun p => Contradiction.pairEmit mo p.1 p.2)
  | [] => rfl
  | [_] => rfl
  | a :: b :: rest => by
    rw [Contradiction.pairsLoop, contradiction_pairsLoop_eq mo (b :: rest)]
    cases h : Contradiction.pairEmit mo a b <;>
      simp [List.zip_cons_cons, List.filterMap_cons, h]

/-- C7: `ContradictionAnalyzer.analyze` emits a `ContradictionPair` for an
adjacent turn pair (A, B) if and only if negation presence differs between A
and B, their word-overlap score is at least `min_overlap`, and both utterance
texts exceed 20 characters; each emitted pair's probability is
`min(0.5 + overlap × 0.5, 0.9)` (`min_overlap` defaults to 0.15 at the call
site). -/
theorem contradiction_pair_characterization (turns : List (Str × Str)) (mo : ℚ) :
    (Contradiction.analyze turns mo).pairs =
      (turns.zip turns.tail).filterMap (fun p =>
        if Contradiction.has_negation p.1.2 ≠ Contradiction.has_negation p.2.2 ∧
           mo ≤ Contradiction.semantic_overlap p.1.2 p.2.2 ∧
           20 < p.1.2.length ∧ 20 < p.2.2.length then
          some ⟨p.1.1, Contradiction.preview p.1.2, p.2.1, Contradiction.preview p.2.2,
            min (0.5 + Contradiction.semantic_overlap p.1.2 p.2.2 * 0.5) 0.9,
            "direct".data, Contradiction.explanationStr⟩
        else none) := by
  rw [show (Contradiction.analyze turns mo).pairs = Contradiction.pairsLoop mo turns
    from rfl]
  rw [contradiction_pairsLoop_eq]
  rfl

set_option maxRecDepth 400000 in
/-- C7 at a concrete input: the theorem applied to `contraTurns` (negation
differs, overlap 2/7 ≥ 0.15, both texts longer than 20 characters) yields the
single expected pair with probability `min(0.5 + (2/7)×0.5, 0.9) = 9/14`. -/
theorem contradiction_pair_example :
    (Contradiction.analyze contraTurns 0.15).pairs.map (·.probability) = [9 / 14] := by
  have h := contradiction_pair_characterization contraTurns 0.15
  rw [h]
  with_unfolding_all rfl

theorem driftLoop_eq :
    ∀ ps : List DocumentProfile, TemporalDrift.driftLoop ps =
      (ps.zip ps.tail).flatMap (fun q => TemporalDrift.pairDrifts q.1 q.2)
  | [] => rfl
  | [_] => rfl
  | p1 :: p2 :: rest => by
    rw [TemporalDrift.driftLoop, driftLoop_eq (p2 :: rest)]
    simp

theorem mkDrift_if_zero (d : Str) (v1 v2 : ℚ) :
    TemporalDrift.mkDrift d v1 v2 =
      ⟨d, v1, v2, v2 - v1,
       if v1 = 0 then 0 else (v2 - v1) / (v1 + 0.001) * 100⟩ := by
  rw [TemporalDrift.mkDrift]
  by_cases h : v1 = 0 <;> simp [h]

/-- C8 amended: for every pair of consecutive document profiles and each of
the four dimensions, `TemporalDriftAnalyzer.analyze` emits a `DriftVector`
with `delta = v2 − v1` and `pct_change = delta / (v1 + 0.001) × 100` when
`v1 ≠ 0`, but `pct_change = 0` when `v1 = 0` (the source's
`... if v1 else 0`). -/
theorem drift_vector_formula (lex : TemporalDrift.DriftLexicons)
    (documents : List (Str × Option Str × Str)) :
    (TemporalDrift.analyze lex documents).drift_vectors =
      (((TemporalDrift.analyze lex documents).profiles).zip
        ((TemporalDrift.analyze lex documents).profiles).tail).flatMap (fun q =>
        [⟨"fear".data, q.1.fear, q.2.fear, q.2.fear - q.1.fear,
          if q.1.fear = 0 then 0
          else (q.2.fear - q.1.fear) / (q.1.fear + 0.001) * 100⟩,
         ⟨"authority".data, q.1.authority, q.2.authority,
          q.2.authority - q.1.authority,
          if q.1.authority = 0 then 0
          else (q.2.authority - q.1.authority) / (q.1.authority + 0.001) * 100⟩,
         ⟨"identity".data, q.1.identity, q.2.identity,
          q.2.identity - q.1.identity,
          if q.1.identity = 0 then 0
          else (q.2.identity - q.1.identity) / (q.1.identity + 0.001) * 100⟩,
         ⟨"liberty".data, q.1.liberty, q.2.liberty, q.2.liberty - q.1.liberty,
          if q.1.liberty = 0 then 0
          else (q.2.liberty - q.1.liberty) / (q.1.liberty + 0.001) * 100⟩]) := by
  rw [show (TemporalDrift.analyze lex documents).drift_vectors =
    TemporalDrift.driftLoop (TemporalDrift.analyze lex documents).profiles from rfl]
  rw [driftLoop_eq]
  simp only [TemporalDrift.pairDrifts, mkDrift_if_zero]

set_option maxRecDepth 100000 in
/-- C8 counterexample: on `driftDocs` the first fear density is 0 and the
second is 1, so the emitted fear `DriftVector` has `delta = 1` but
`pct_change = 0`, whereas the claim's formula `delta / (v1 + 0.001) × 100`
gives 100000 at `v1 = 0`. -/
theorem drift_pct_change_zero_at_zero :
    (TemporalDrift.analyze driftLex driftDocs).drift_vectors.headD
        ⟨[], 0, 0, 0, 0⟩ = ⟨"fear".data, 0, 1, 1, 0⟩ ∧
    ((1 : ℚ) - 0) / (0 + 0.001) * 100 = 100000 ∧ (0 : ℚ) ≠ 100000 := by
  refine ⟨by with_unfolding_all rfl, by norm_num, by norm_num⟩

theorem mem_dedupMatches :
    ∀ {ms : List HiddenAssumptions.AssumptionMatch} {seen : List Str}
      {f : AssumptionFlag}, f ∈ HiddenAssumptions.dedupMatches ms seen →
      ∃ m ∈ ms, f = ⟨HiddenAssumptions.fullDescription m, m.sentence,
        max 0 (min 0.95 m.confidence)⟩ := by
  intro ms
  induction ms with
  | nil => intro seen f hf; simp [HiddenAssumptions.dedupMatches] at hf
  | cons m rest ih =>
    intro seen f hf
    rw [HiddenAssumptions.dedupMatches] at hf
    by_cases hc : seen.contains (HiddenAssumptions.fullDescription m) = true
    · rw [if_pos hc] at hf
      obtain ⟨m', hm', he⟩ := ih hf
      exact ⟨m', List.mem_cons_of_mem m hm', he⟩
    · rw [if_neg hc] at hf
      rcases List.mem_cons.mp hf with rfl | hf
      · exact ⟨m, List.mem_cons_self m rest, rfl⟩
      · obtain ⟨m', hm', he⟩ := ih hf
        exact ⟨m', List.mem_cons_of_mem m hm', he⟩

/-- The shape of every match a check function emits: its sentence is the
scanned sentence and its confidence is a family base minus the hedging
penalty. -/
def matchShape (s : Str) (m : HiddenAssumptions.AssumptionMatch) : Prop :=
  m.sentence = s ∧ ∃ b : ℚ, (m.description, b) ∈ assumptionFamilyBases ∧
    m.confidence = b - HiddenAssumptions.hedging_penalty s

theorem mem_check_presup {s : Str} {m}
    (hm : m ∈ HiddenAssumptions.check_presupposition_triggers s) : matchShape s m := by
  rw [HiddenAssumptions.check_presupposition_triggers] at hm
  rcases List.mem_append.mp hm with hm | hm
  rcases List.mem_append.mp hm with hm | hm
  rcases List.mem_append.mp hm with hm | hm
  all_goals split at hm
  all_goals simp at hm
  all_goals subst hm
  · exact ⟨rfl, 0.75, by simp [assumptionFamilyBases], rfl⟩
  · exact ⟨rfl, 0.65, by simp [assumptionFamilyBases], rfl⟩
  · exact ⟨rfl, 0.68, by simp [assumptionFamilyBases], rfl⟩
  · exact ⟨rfl, 0.70, by simp [assumptionFamilyBases], rfl⟩

theorem mem_check_epistemic {s : Str} {m}
    (hm : m ∈ HiddenAssumptions.check_epistemic_shortcuts s) : matchShape s m := by
  rw [HiddenAssumptions.check_epistemic_shortcuts] at hm
  split at hm <;> simp at hm
  subst hm
  exact ⟨rfl, 0.80, by simp [assumptionFamilyBases], rfl⟩

theorem mem_check_universal {s : Str} {m}
    (hm : m ∈ HiddenAssumptions.check_universal_quantifiers s) : matchShape s m := by
  rw [HiddenAssumptions.check_universal_quantifiers] at hm
  split at hm <;> simp at hm
  subst hm
  exact ⟨rfl, 0.55, by simp [assumptionFamilyBases], rfl⟩

theorem mem_check_vague {s : Str} {m}
    (hm : m ∈ HiddenAssumptions.check_vague_authority s) : matchShape s m := by
  rw [HiddenAssumptions.check_vague_authority] at hm
  split at hm <;> simp at hm
  subst hm
  exact ⟨rfl, 0.65, by simp [assumptionFamilyBases], rfl⟩

theorem mem_check_conclusion {s : Str} {m}
    (hm : m ∈ HiddenAssumptions.check_conclusion_markers s) : matchShape s m := by
  rw [HiddenAssumptions.check_conclusion_markers] at hm
  rcases hcs : HiddenAssumptions.conclusionSearch (lowerStr s) with _ | ⟨i, w⟩ <;>
    rw [hcs] at hm <;> simp at hm
  subst hm
  refine ⟨rfl, ?_⟩
  by_cases hmk : w = "therefore".data ∨ w = "thus".data ∨ w = "hence".data
  · exact ⟨0.70, by simp [assumptionFamilyBases], by simp [if_pos hmk]⟩
  · exact ⟨0.55, by simp [assumptionFamilyBases], by simp [if_neg hmk]⟩

theorem mem_check_loaded {s : Str} {m}
    (hm : m ∈ HiddenAssumptions.check_loaded_questions s) : matchShape s m := by
  simp only [HiddenAssumptions.check_loaded_questions] at hm
  by_cases h1 : (!containsSub s "?".data) = true
  · rw [if_pos h1] at hm
    exact absurd hm (List.not_mem_nil m)
  · rw [if_neg h1] at hm
    by_cases h2 : (HiddenAssumptions.loaded1 (lowerStr s) ||
        HiddenAssumptions.loaded2 (lowerStr s) ||
        HiddenAssumptions.loaded3 (lowerStr s) ||
        HiddenAssumptions.loaded4 (lowerStr s)) = true
    · rw [if_pos h2] at hm
      simp at hm
      subst hm
      exact ⟨rfl, 0.85, by simp [assumptionFamilyBases], rfl⟩
    · rw [if_neg h2] at hm
      by_cases h3 : HiddenAssumptions.suggestiveMatch (lowerStr s) = true
      · rw [if_pos h3] at hm
        simp at hm
        subst hm
        exact ⟨rfl, 0.75, by simp [assumptionFamilyBases], rfl⟩
      · rw [if_neg h3] at hm
        exact absurd hm (List.not_mem_nil m)

theorem mem_assumption_checks {s : Str} {m}
    (hm : m ∈ HiddenAssumptions.check_presupposition_triggers s ++
      HiddenAssumptions.check_epistemic_shortcuts s ++
      HiddenAssumptions.check_universal_quantifiers s ++
      HiddenAssumptions.check_vague_authority s ++
      HiddenAssumptions.check_conclusion_markers s ++
      HiddenAssumptions.check_loaded_questions s) : matchShape s m := by
  rcases List.mem_append.mp hm with hm | hm
  · rcases List.mem_append.mp hm with hm | hm
    · rcases List.mem_append.mp hm with hm | hm
      · rcases List.mem_append.mp hm with hm | hm
        · rcases List.mem_append.mp hm with hm | hm
          · exact mem_check_presup hm
          · exact mem_check_epistemic hm
        · exact mem_check_universal hm
      · exact mem_check_vague hm
    · exact mem_check_conclusion hm
  · exact mem_check_loaded hm

/-- C4 amended: among the rule-based detectors only the Assumption analyzer
implements the shared confidence model — every flag it emits has confidence
equal to its family's base confidence minus the hedging penalty of its
sentence, clamped to [0, 0.95].  (The Fallacy analyzer emits fixed
per-family confidences with no hedging adjustment, see the counterexample,
and the Agenda analyzer raises before emitting any flag, see C2.) -/
theorem assumption_confidence_model (text : Str) (f : AssumptionFlag)
    (hf : f ∈ HiddenAssumptions.analyze text) :
    ∃ p ∈ assumptionFamilyBases, (∃ t, f.description = p.1 ++ t) ∧
      f.confidence =
        max 0 (min 0.95 (p.2 - HiddenAssumptions.hedging_penalty f.sentence)) := by
  rw [HiddenAssumptions.analyze] at hf
  by_cases hb : (text.isEmpty || (pyStrip text).isEmpty) = true
  · rw [if_pos hb] at hf
    exact absurd hf (List.not_mem_nil f)
  · rw [if_neg hb] at hf
    obtain ⟨m, hm, rfl⟩ := mem_dedupMatches hf
    obtain ⟨s, _, hm'⟩ := List.mem_flatMap.mp hm
    obtain ⟨hsent, b, hbmem, hconf⟩ := mem_assumption_checks hm'
    refine ⟨(m.description, b), hbmem, ?_, ?_⟩
    · rcases htr : m.trigger with _ | t
      · exact ⟨[], by simp [HiddenAssumptions.fullDescription, htr]⟩
      · exact ⟨" [trigger: ".data ++ ((apos :: t) ++ (apos :: "]".data)),
          by simp [HiddenAssumptions.fullDescription, htr, List.append_assoc]⟩
    · show max 0 (min 0.95 m.confidence) = _
      rw [hconf, hsent]

set_option maxRecDepth 100000 in
/-- C4 counterexample: the Fallacy analyzer does not apply the hedging
penalty.  On a hedged sentence ("Perhaps … could …") containing the fear term
`destroy`, the emitted Appeal-to-Fear flag keeps the fixed confidence 0.65,
not the `0.65 − 0.1` (clamped) the claim requires. -/
theorem fallacy_confidence_ignores_hedging :
    LogicalFallacy.analyze hedgeText =
      [⟨"Appeal to Fear".data, "threat language".data, hedgeText, 0.65⟩] ∧
    HiddenAssumptions.hedging_penalty hedgeText = 0.1 ∧
    (0.65 : ℚ) ≠ max 0 (min 0.95 (0.65 - 0.1)) := by
  refine ⟨by with_unfolding_all rfl, by with_unfolding_all rfl, by norm_num⟩

set_option maxRecDepth 100000 in
/-- C4 witness: `assumption_confidence_model` applied to a concrete sentence
whose single flag comes from the epistemic-shortcut family (base 0.80, no
hedge word). -/
theorem assumption_confidence_model_witness :
    ∃ p ∈ assumptionFamilyBases,
      (∃ t, (⟨HiddenAssumptions.descEpistemic ++ " [trigger: ".data ++
          (apos :: "obviously".data) ++ (apos :: "]".data), obviousText,
          0.8⟩ : AssumptionFlag).description = p.1 ++ t) ∧
      (⟨HiddenAssumptions.descEpistemic ++ " [trigger: ".data ++
          (apos :: "obviously".data) ++ (apos :: "]".data), obviousText,
          0.8⟩ : AssumptionFlag).confidence =
        max 0 (min 0.95 (p.2 - HiddenAssumptions.hedging_penalty
          (⟨HiddenAssumptions.descEpistemic ++ " [trigger: ".data ++
            (apos :: "obviously".data) ++ (apos :: "]".data), obviousText,
            0.8⟩ : AssumptionFlag).sentence)) :=
  assumption_confidence_model obviousText _ (by
    have h : HiddenAssumptions.analyze obviousText =
        [⟨HiddenAssumptions.descEpistemic ++ " [trigger: ".data ++
          (apos :: "obviously".data) ++ (apos :: "]".data), obviousText, 0.8⟩] := by
      with_unfolding_all rfl
    rw [h]
    exact List.mem_singleton.mpr rfl)

theorem clsP_eq_nil {s : Str} {p : Char → Bool} (hs : allWs s)
    (hp : ∀ c, isWs c = true → p c = false) (S : List Nat) : clsP s p S = [] := by
  rw [clsP, List.filter_eq_nil_iff.mpr, List.map_nil]
  intro i _
  cases hg : s.get? i with
  | none => simp [hg]
  | some c =>
    have hc : c ∈ s := List.get?_mem hg
    simp [hg, hp c (hs c hc)]

theorem clsP_nil {s : Str} {p : Char → Bool} : clsP s p [] = [] := rfl

theorem runPlusP_nil {s : Str} {p : Char → Bool} :
    HiddenAgenda.runPlusP s p [] = [] := rfl

theorem bracketMarker_ws (hs : allWs text) : bracketMarker text = false := by
  have key : ∀ x : Char, isWs x = false → ∀ S : List Nat,
      clsP text (fun c => c == x) S = [] := by
    intro x hx S
    apply clsP_eq_nil hs
    intro c hc
    rcases Decidable.em (c = x) with h | h
    · rw [h] at hc
      rw [hc] at hx
      cases hx
    · simp [h]
  rw [bracketMarker, key ']' (by decide)]
  rfl

theorem fallacy_analyze_ws (hs : allWs text) : LogicalFallacy.analyze text = [] := by
  have hl := allWs_lowerStr hs
  have h1 : LogicalFallacy.falseDilemmaStart (lowerStr text) = none := by
    rw [LogicalFallacy.falseDilemmaStart]
    simp +decide [List.find?_eq_none, boundedAt, occursAt_eq_false hl]
  have h3 : LogicalFallacy.attackStart (lowerStr text) = none := by
    rw [LogicalFallacy.attackStart]
    simp +decide [List.find?_eq_none, litP_eq_nil hl, wsPlusP_nil, litP_nil,
      wordPlusP_nil, someMatch]
  have h2 : LogicalFallacy.FEAR_TERMS.any
      (fun t => containsSub (lowerStr text) t) = false := by
    simp +decide [LogicalFallacy.FEAR_TERMS, containsSub_eq_false hl]
  rw [LogicalFallacy.analyze]
  simp only [h1, h2, h3]
  rfl

/-- C9: on every empty or whitespace-only input text, `run_pipeline` returns
(raising no exception) a report whose logical-fallacy, hidden-assumption and
hidden-agenda flag lists are all empty, whose satire probability is 0.0, and
whose content-type hint is "Uncertain" — for any transcript-preprocessing
collaborators and any lexicons. -/
theorem blank_text_pipeline (pre : Str → Str) (detect : Str → Option Str)
    (lex : TriggerProfiling.TriggerLexicons) (agendaFearTerms : List Str)
    (text : Str) (h : allWs text) :
    ∃ r, run_pipeline pre detect lex agendaFearTerms text none = .ok r ∧
      r.logical_fallacy_flags = [] ∧ r.hidden_assumptions = [] ∧
      r.hidden_agenda_flags = [] ∧ r.satire_probability = 0 ∧
      r.content_type_hint = "Uncertain".data := by
  have hstrip : pyStrip text = [] := pyStrip_nil_of_allWs h
  have hcond : (text.isEmpty || (pyStrip text).isEmpty) = true := by
    rw [hstrip]
    simp
  have hmark : ¬ (bracketMarker text = true ∧ (none : Option Str) = none) := by
    rw [bracketMarker_ws h]
    simp
  have hagenda : HiddenAgenda.analyze agendaFearTerms text = .ok [] := by
    rw [HiddenAgenda.analyze, if_pos hcond]
  have hsat : Satire.analyze text = (0, [], "Uncertain".data) := by
    rw [Satire.analyze, if_pos hcond]
  have hasm : HiddenAssumptions.analyze text = [] := by
    rw [HiddenAssumptions.analyze, if_pos hcond]
  rw [run_pipeline]
  rw [if_neg hmark]
  dsimp only
  rw [hagenda, hsat, hasm, fallacy_analyze_ws h]
  exact ⟨_, rfl, rfl, rfl, rfl, rfl, rfl⟩

/-- C9 witness: the pipeline on the single-space text with identity
preprocessing and empty lexicons. -/
theorem blank_text_pipeline_witness :
    allWs " ".data ∧
    ∃ r, run_pipeline id (fun _ => none) ⟨[], [], []⟩
        HiddenAgenda.DEFAULT_FEAR_TERMS " ".data none = .ok r ∧
      r.logical_fallacy_flags = [] ∧ r.hidden_assumptions = [] ∧
      r.hidden_agenda_flags = [] ∧ r.satire_probability = 0 ∧
      r.content_type_hint = "Uncertain".data :=
  ⟨by decide, blank_text_pipeline id (fun _ => none) ⟨[], [], []⟩
    HiddenAgenda.DEFAULT_FEAR_TERMS " ".data (by decide)⟩

theorem turnMetricsAux_get? :
    ∀ (ts : List (Str × Str)) (k i : Nat),
      (DebateHeatmap.turnMetricsAux k ts).get? i =
        (ts.get? i).map (DebateHeatmap.mkTurnMetrics (k + i))
  | [], k, i => by simp [DebateHeatmap.turnMetricsAux]
  | t :: rest, k, 0 => by simp [DebateHeatmap.turnMetricsAux]
  | t :: rest, k, i + 1 => by
    show (DebateHeatmap.turnMetricsAux (k + 1) rest).get? i = (rest.get? i).map _
    rw [turnMetricsAux_get? rest (k + 1) i,
      show k + 1 + i = k + (i + 1) from by omega]

theorem turnMetricsAux_length :
    ∀ (ts : List (Str × Str)) (k : Nat),
      (DebateHeatmap.turnMetricsAux k ts).length = ts.length
  | [], _ => rfl
  | _ :: rest, k => by
    rw [DebateHeatmap.turnMetricsAux, List.length_cons,
      turnMetricsAux_length rest (k + 1)]
    rfl

theorem turnMetricsList_get? (turns : List (Str × Str)) (i : Nat) :
    (DebateHeatmap.turnMetricsList turns).get? i =
      (turns.get? i).map (DebateHeatmap.mkTurnMetrics i) := by
  rw [DebateHeatmap.turnMetricsList, turnMetricsAux_get?, Nat.zero_add]

theorem foldl_cellStep_congr {tm1 tm2 : List TurnMetrics} {s : Str} :
    ∀ (idxs : List Nat) (acc : ℚ),
      (∀ j ∈ idxs, tm1.get? j = tm2.get? j) →
      idxs.foldl (DebateHeatmap.cellStep tm1 s) acc =
        idxs.foldl (DebateHeatmap.cellStep tm2 s) acc
  | [], _, _ => rfl
  | j :: rest, acc, h => by
    rw [List.foldl_cons, List.foldl_cons,
      show DebateHeatmap.cellStep tm1 s acc j = DebateHeatmap.cellStep tm2 s acc j
        from by rw [DebateHeatmap.cellStep, DebateHeatmap.cellStep,
          h j (List.mem_cons_self j rest)]]
    exact foldl_cellStep_congr rest _ (fun x hx => h x (List.mem_cons_of_mem j hx))

theorem binIndices_lt {n size b : Nat} :
    ∀ x ∈ DebateHeatmap.binIndices n size b, x < b * size + size := by
  intro x hx
  rw [DebateHeatmap.binIndices] at hx
  rcases List.mem_map.mp hx with ⟨k, hk, rfl⟩
  have := List.mem_range.mp hk
  omega

/-- C10: when the turn count exceeds `time_bins × max(1, turn_count //
time_bins)`, the trailing turns (indices at or past that product) are assigned
to no heatmap bin — replacing their texts cannot change any heatmap cell —
while those same turns still determine the per-turn `escalation_by_turn`
entries and the per-speaker influence means over *all* of a speaker's
turns. -/
theorem debate_heatmap_trailing_turns (bins : Nat) (turns1 turns2 : List (Str × Str))
    (hlen : turns1.length = turns2.length)
    (hsp : turns1.map Prod.fst = turns2.map Prod.fst)
    (hagree : ∀ i, i < bins * max 1 (turns1.length / bins) →
      turns1.get? i = turns2.get? i)
    (_hex : bins * max 1 (turns1.length / bins) < turns1.length) :
    (DebateHeatmap.analyze bins turns1).heatmap_grid =
      (DebateHeatmap.analyze bins turns2).heatmap_grid ∧
    (DebateHeatmap.analyze bins turns1).escalation_by_turn.length = turns1.length ∧
    (∀ i, i < turns1.length →
      (DebateHeatmap.analyze bins turns1).escalation_by_turn.get? i =
        (turns1.get? i).map (fun t =>
          DebateHeatmap.intensity_score t.2 + DebateHeatmap.dominance_score t.2)) ∧
    (DebateHeatmap.analyze bins turns1).influence_scores =
      (DebateHeatmap.analyze bins turns1).speakers.map (fun s =>
        (s, DebateHeatmap.influenceOf (DebateHeatmap.turnMetricsList turns1) s)) := by
  have htm : ∀ j, j < bins * max 1 (turns1.length / bins) →
      (DebateHeatmap.turnMetricsList turns1).get? j =
        (DebateHeatmap.turnMetricsList turns2).get? j := by
    intro j hj
    rw [turnMetricsList_get?, turnMetricsList_get?, hagree j hj]
  refine ⟨?_, ?_, ?_, rfl⟩
  · have hg1 : (DebateHeatmap.analyze bins turns1).heatmap_grid =
        (DebateHeatmap.uniqueFirst (turns1.map Prod.fst)).map (fun s =>
          (List.range bins).map (DebateHeatmap.cellValue
            (DebateHeatmap.turnMetricsList turns1) turns1.length
            (max 1 (turns1.length / bins)) s)) := rfl
    have hg2 : (DebateHeatmap.analyze bins turns2).heatmap_grid =
        (DebateHeatmap.uniqueFirst (turns2.map Prod.fst)).map (fun s =>
          (List.range bins).map (DebateHeatmap.cellValue
            (DebateHeatmap.turnMetricsList turns2) turns2.length
            (max 1 (turns2.length / bins)) s)) := rfl
    rw [hg1, hg2, ← hsp, ← hlen]
    apply List.map_congr_left
    intro s _
    apply List.map_congr_left
    intro b hb
    have hblt : b < bins := List.mem_range.mp hb
    rw [DebateHeatmap.cellValue, DebateHeatmap.cellValue]
    apply foldl_cellStep_congr
    intro j hj
    apply htm
    have h1 := binIndices_lt j hj
    have h2 : (b + 1) * max 1 (turns1.length / bins) ≤
        bins * max 1 (turns1.length / bins) :=
      Nat.mul_le_mul_right _ hblt
    have h3 : b * max 1 (turns1.length / bins) + max 1 (turns1.length / bins) =
        (b + 1) * max 1 (turns1.length / bins) := by ring
    omega
  · show ((DebateHeatmap.turnMetricsList turns1).map _).length = _
    rw [List.length_map, DebateHeatmap.turnMetricsList, turnMetricsAux_length]
  · intro i _
    show ((DebateHeatmap.turnMetricsList turns1).map _).get? i = _
    rw [List.get?_map, turnMetricsList_get?]
    cases turns1.get? i <;> rfl

/-- C10 witness: three turns in two bins (`2 × max(1, 3 // 2) = 2 < 3`), so
turn index 2 is trailing; the two turn lists differ only in that turn's
text, yet the heatmap grids coincide. -/
theorem debate_heatmap_trailing_turns_witness :
    heatTurns1.length = heatTurns2.length ∧
    heatTurns1.map Prod.fst = heatTurns2.map Prod.fst ∧
    (∀ i, i < 2 * max 1 (heatTurns1.length / 2) →
      heatTurns1.get? i = heatTurns2.get? i) ∧
    2 * max 1 (heatTurns1.length / 2) < heatTurns1.length ∧
    ((DebateHeatmap.analyze 2 heatTurns1).heatmap_grid =
      (DebateHeatmap.analyze 2 heatTurns2).heatmap_grid ∧
    (DebateHeatmap.analyze 2 heatTurns1).escalation_by_turn.length =
      heatTurns1.length ∧
    (∀ i, i < heatTurns1.length →
      (DebateHeatmap.analyze 2 heatTurns1).escalation_by_turn.get? i =
        (heatTurns1.get? i).map (fun t =>
          DebateHeatmap.intensity_score t.2 + DebateHeatmap.dominance_score t.2)) ∧
    (DebateHeatmap.analyze 2 heatTurns1).influence_scores =
      (DebateHeatmap.analyze 2 heatTurns1).speakers.map (fun s =>
        (s, DebateHeatmap.influenceOf (DebateHeatmap.turnMetricsList heatTurns1) s))) :=
  ⟨by decide, by decide, by decide, by decide,
   debate_heatmap_trailing_turns 2 heatTurns1 heatTurns2
     (by decide) (by decide) (by decide) (by decide)⟩

end DiscourseEngine
